import Mathlib

set_option linter.unusedVariables false

/-
Shallow embedding of `src/charm_refresh/_main.py` (canonical/charm-refresh),
Kubernetes variant (`_Kubernetes`), together with the auxiliary data types it
uses.  The embedding models:

  * `_PauseAfter` (the `pause_after_unit_refresh` config enum),
  * `_OriginalVersions` (the version snapshot stored in the app databag),
  * the peer-relation databags (per-unit and app scoped) as records whose
    fields carry the exact databag keys used by the source,
  * `_KubernetesUnit` (unit number, StatefulSet controller revision, pod uid),
  * `_Kubernetes._start_refresh` (self-certification with the
    force-refresh-start action),
  * `_Kubernetes._set_partition_and_app_status` (leader barrier/status policy
    with the resume-refresh action),
  * the `next_unit_allowed_to_refresh` getter/setter and
    `workload_allowed_to_start`,
  * `_Kubernetes.__init__` as a per-trigger evaluation
    `evaluate : Env → KState → Except (Abort × KState) (EvalOutput × KState)`.

External effects are made explicit:

  * File reads (`refresh_versions.toml`, `.juju-charm`, `metadata.yaml`),
    the Kubernetes API (pod list, StatefulSet update revision, trust review)
    and the Juju event are inputs, collected in `Env`.
  * Writes (StatefulSet partition patches, databag writes, local state
    files under `.charm_refresh_v3`) act on `KState`.
  * Charm-specific callbacks (`is_compatible`,
    `run_pre_refresh_checks_after_1_unit_refreshed`,
    `run_pre_refresh_checks_before_any_units_refreshed`) are opaque inputs
    in `Env`; a pre-refresh check result is `none` on success and
    `some message` for `PrecheckFailed(message)`.
  * Python exceptions escaping `_Kubernetes.__init__` are `Abort` values;
    the state reached at the moment of the raise is returned alongside.
  * Action output (`event.fail` / `event.log` / `event.result`) and statuses
    are collected in `EvalOutput`.  Logger output is not modelled.
  * `CharmVersion` values are kept as their raw version strings
    (`CharmVersion.__eq__` compares the raw strings); whether a string parses
    as a `CharmVersion` is an `Env`-supplied predicate `charmVersionParses`.
-/

namespace CharmRefresh

/-- `charm.Status` (the four ops status kinds used by the source). -/
inductive Status where
  | active (message : String)
  | waiting (message : String)
  | maintenance (message : String)
  | blocked (message : String)
  deriving DecidableEq, Repr, Inhabited

/-- Output of `event.fail` / `event.log` / `event.result` calls on the Juju
event, in program order. -/
inductive ActionMsg where
  | log (message : String)
  | fail (message : String)
  | result (message : String)
  deriving DecidableEq, Repr, Inhabited

/-- Exceptions that can escape `_Kubernetes.__init__` (and helpers):
`KubernetesJujuAppNotTrusted`, `UnitTearingDown`, `PeerRelationMissing`,
Python `ValueError`, `IndexError` (and `StopIteration`/`NameError` on missing
elements, folded into `indexError`), `AssertionError`. -/
inductive Abort where
  | kubernetesJujuAppNotTrusted
  | unitTearingDown
  | peerRelationMissing
  | valueError (message : String)
  | indexError
  | assertionError
  deriving DecidableEq, Repr, Inhabited

/-- `_PauseAfter`: the `pause_after_unit_refresh` config option
(lines 636-654). -/
inductive PauseAfter where
  | none
  | first
  | all
  | unknown
  deriving DecidableEq, Repr, Inhabited

/-- The priorities dictionary in `_PauseAfter.__gt__`
(`{NONE: 0, FIRST: 1, ALL: 2, UNKNOWN: 3}`). -/
def PauseAfter.priority : PauseAfter → Nat
  | .none => 0
  | .first => 1
  | .all => 2
  | .unknown => 3

/-- `_PauseAfter.__gt__`: `priorities[self] > priorities[other]`. -/
def PauseAfter.gt (a b : PauseAfter) : Bool :=
  b.priority < a.priority

/-- `_PauseAfter(value)`: enum lookup by value; `_missing_` returns
`UNKNOWN` for any unrecognized value. -/
def PauseAfter.ofString (s : String) : PauseAfter :=
  if s = "none" then .none
  else if s = "first" then .first
  else if s = "all" then .all
  else if s = "unknown" then .unknown
  else .unknown

/-- Python `max(iterable)` over `_PauseAfter` values: start with the first
element, replace the accumulator whenever a later element compares
strictly greater via `__gt__`. -/
def PauseAfter.maxOf (v : PauseAfter) (vs : List PauseAfter) : PauseAfter :=
  vs.foldl (fun acc x => if PauseAfter.gt x acc then x else acc) v

/-- `_RawCharmRevision.charmhub_revision`: `self.split("-")[-1]` when the
revision starts with `"ch:"`, else `None`. -/
def charmhubRevision (s : String) : Option String :=
  if s.startsWith "ch:" then some ((s.splitOn "-").getLastD s)
  else Option.none

/-- `_OriginalVersions` (lines 693-769): versions of all units immediately
after the last completed refresh.  A plain record; the `__post_init__`
validation is `mkOriginalVersions`. -/
structure OriginalVersions where
  workload : Option String
  workload_container : String
  installed_workload_container_matched_pinned_container : Bool
  charm : String
  charm_revision_raw : String
  deriving DecidableEq, Repr, Inhabited

/-- `_OriginalVersions(...)` dataclass construction including
`__post_init__` (lines 719-732): raises `ValueError` unless the
workload-version field is present exactly when the matched flag is true. -/
def mkOriginalVersions (workload : Option String) (workload_container : String)
    (matched : Bool) (charm : String) (charm_revision_raw : String) :
    Except String OriginalVersions :=
  if matched ∧ workload = Option.none then
    .error "`workload` cannot be `None` if `installed_workload_container_matched_pinned_container` is `True`"
  else if ¬matched ∧ workload ≠ Option.none then
    .error "`workload` must be `None` if `installed_workload_container_matched_pinned_container` is `False`"
  else
    .ok ⟨workload, workload_container, matched, charm, charm_revision_raw⟩

/-- `_KubernetesUnit`: unit number, StatefulSet controller revision
(`controller-revision-hash` pod label) and pod uid. `self._units` is sorted
from highest to lowest unit number. -/
structure KUnit where
  number : Nat
  controllerRevision : String
  podUid : String
  deriving DecidableEq, Repr, Inhabited

/-- This unit's peer-relation databag (`self._relation.my_unit`), with one
field per databag key written by the source.  `Option.none` means the key is
absent. -/
structure UnitBag where
  pause_after_unit_refresh_config : Option String := Option.none
  refresh_started_if_app_controller_revision_hash_in : Option (List String) := Option.none
  pod_uids_of_units_that_are_tearing_down : Option (List String) := Option.none
  next_unit_allowed_to_refresh_if_app_controller_revision_hash_equals : Option String := Option.none
  unused_pod_uid_after_pod_restart_and_partition_raised : Option String := Option.none
  unused_controller_revision_during_last_stop_event : Option String := Option.none
  deriving DecidableEq, Repr, Inhabited

/-- The app databag (`my_app_ro` / `my_app_rw`).  The five
`original_*` keys are collapsed into one optional `OriginalVersions` record
(all present or all absent); `_OriginalVersions.from_app_databag` treats a
missing key and an invalid value alike (both raise `ValueError`). -/
structure AppBag where
  refresh_started_if_app_controller_revision_hash_in : Option (List String) := Option.none
  originals : Option OriginalVersions := Option.none
  deriving DecidableEq, Repr, Inhabited

/-- Local state under `.charm_refresh_v3` (`_LOCAL_STATE`):
flag files as booleans, the tearing-down pod-uid JSON file as an optional
list. -/
structure LocalState where
  kubernetes_unit_tearing_down : Bool := false
  kubernetes_unit_tearing_down_logged : Bool := false
  kubernetes_had_opportunity_to_raise_partition_after_pod_restart : Bool := false
  kubernetes_pod_ids_of_units_that_are_tearing_down : Option (List String) := Option.none
  kubernetes_refresh_started : Bool := false
  deriving DecidableEq, Repr, Inhabited

/-- The mutable state a trigger evaluation can write: the StatefulSet
partition, this unit's databag, the app databag, and local state files. -/
structure KState where
  partition : Nat
  myBag : UnitBag
  appBag : AppBag
  localState : LocalState
  deriving DecidableEq, Repr, Inhabited

/-- Parameters of an action event (`event.parameters`); only the keys read by
the source are modelled.  Defaults mirror `actions.yaml` defaults (all
checks enabled). -/
structure ActionParams where
  check_workload_container : Bool := true
  check_compatibility : Bool := true
  run_pre_refresh_checks : Bool := true
  check_health_of_refreshed_units : Bool := true
  deriving DecidableEq, Repr, Inhabited

/-- The Juju event (`charm.event`) as far as the source inspects it:
`charm.StopEvent`, `charm.RelationDepartedEvent` (with whether the departing
unit belongs to this app and its unit number), `charm.ActionEvent` (with the
action name and parameters), or anything else. -/
inductive Event where
  | other
  | stop
  | relationDeparted (departingSameApp : Bool) (departingNumber : Nat)
  | action (name : String) (params : ActionParams)
  deriving DecidableEq, Repr, Inhabited

/-- Read-only inputs of one trigger evaluation: the Juju event and
leadership, the Kubernetes API reads, the peer databags of the other units,
the charm's own files, and the charm-specific callbacks. -/
structure Env where
  event : Event
  isLeader : Bool
  /-- `SelfSubjectAccessReview` outcome (`juju trust`). -/
  trusted : Bool
  /-- Whether `PeerRelation.from_endpoint("refresh-v-three")` found the
  relation. -/
  relationExists : Bool
  appName : String
  /-- `StatefulSet.status.updateRevision`. -/
  appControllerRevision : String
  /-- Pods of this app, sorted from highest to lowest unit number
  (`self._units`). -/
  units : List KUnit
  /-- `charm.unit` (its number; name comparisons between units of this app
  reduce to number comparisons). -/
  thisUnitNumber : Nat
  /-- Peer units' databags by unit number (`self._relation.get(unit)` for
  units other than this one); `none` when the unit is missing from the
  relation. -/
  unitBags : Nat → Option UnitBag
  /-- `charm.config["pause_after_unit_refresh"]`. -/
  pauseConfig : String
  /-- `_RefreshVersions.from_file().charm` (raw version string). -/
  installedCharmVersion : String
  /-- `_RawCharmRevision.from_file()` (contents of `.juju-charm`). -/
  installedCharmRevisionRaw : String
  /-- `_RefreshVersions.from_file().workload`. -/
  pinnedWorkloadVersion : String
  /-- Digest part of `upstream-source` in `metadata.yaml`
  (`self._pinned_workload_container_version`). -/
  pinnedContainer : String
  /-- `self._installed_workload_container_version`: this unit's workload
  image digest from the pod status, `none` when not available. -/
  installedContainer : Option String
  /-- `self._installed_workload_image_name`. -/
  installedImageName : String
  /-- `CharmSpecific.workload_name`. -/
  workloadName : String
  /-- `CharmSpecific.oci_resource_name`. -/
  ociResourceName : String
  /-- `CharmSpecific.refresh_user_docs_url`. -/
  refreshUserDocsUrl : String
  /-- `CharmSpecific.is_compatible(old_charm, new_charm, old_workload,
  new_workload)`. -/
  isCompatible : String → String → String → String → Bool
  /-- Result of `run_pre_refresh_checks_after_1_unit_refreshed`: `none` on
  success, `some message` for `PrecheckFailed(message)`. -/
  preRefreshAfterResult : Option String
  /-- Result of `run_pre_refresh_checks_before_any_units_refreshed`. -/
  preRefreshBeforeResult : Option String
  /-- Whether `CharmVersion(s)` parses without `ValueError`. -/
  charmVersionParses : String → Bool

/-- `self._relation.get(unit)`: this unit reads its own (possibly already
rewritten) databag, other units' bags come from the relation. -/
def relationGet (env : Env) (myBag : UnitBag) (u : KUnit) : Option UnitBag :=
  if u.number = env.thisUnitNumber then some myBag else env.unitBags u.number

/-- `self._relation.get(unit, {}).get("refresh_started_if_app_controller_revision_hash_in", tuple())`. -/
def bagRefreshStartedHashes (env : Env) (myBag : UnitBag) (u : KUnit) : List String :=
  match relationGet env myBag u with
  | some b => b.refresh_started_if_app_controller_revision_hash_in.getD []
  | Option.none => []

/-- `self._relation.get(unit, {}).get("pod_uids_of_units_that_are_tearing_down", tuple())`. -/
def bagTearingDownUids (env : Env) (myBag : UnitBag) (u : KUnit) : List String :=
  match relationGet env myBag u with
  | some b => b.pod_uids_of_units_that_are_tearing_down.getD []
  | Option.none => []

/-- `list.append(x)` guarded by `if x not in list` (the source's
append-if-missing idiom). -/
def appendIfMissing (l : List String) (x : String) : List String :=
  if x ∈ l then l else l ++ [x]

/-- `_OriginalVersions.from_app_databag` (lines 734-751): raises `ValueError`
when a key is missing, the stored charm version does not parse, or
`__post_init__` rejects the field combination. -/
def fromAppDatabag (parses : String → Bool) (bag : AppBag) :
    Except Abort OriginalVersions :=
  match bag.originals with
  | Option.none =>
    .error (.valueError "Refresh failed. Automatic recovery not possible. Original versions in app databag are missing or invalid")
  | some r =>
    if parses r.charm then
      match mkOriginalVersions r.workload r.workload_container
          r.installed_workload_container_matched_pinned_container r.charm
          r.charm_revision_raw with
      | .ok v => .ok v
      | .error _ =>
        .error (.valueError "Refresh failed. Automatic recovery not possible. Original versions in app databag are missing or invalid")
    else
      .error (.valueError "Refresh failed. Automatic recovery not possible. Original versions in app databag are missing or invalid")

/-- `_OriginalVersions.write_to_app_databag` (lines 753-769): overwrite the
five `original_*` keys with this record's values. -/
def writeToAppDatabag (v : OriginalVersions) (bag : AppBag) : AppBag :=
  { bag with originals := some v }

/-- `self._rollback_command` (lines 1999-2004). -/
def rollbackCommandString (env : Env) (v : OriginalVersions) : String :=
  "juju refresh " ++ env.appName ++ " --revision "
    ++ ((charmhubRevision v.charm_revision_raw).getD "None")
    ++ " --resource " ++ env.ociResourceName ++ "="
    ++ env.installedImageName ++ "@" ++ v.workload_container

/-- Outcome of `_ForceRefreshStartAction.__init__` (lines 1006-1037):
`notAction` when `_InvalidForceEvent` is raised without `event.fail` (wrong
event type or action name), `rejected` when `event.fail(message)` is called
before the raise, `accepted` with the parameters otherwise. -/
inductive ForceValidation where
  | notAction
  | rejected (failMessage : String)
  | accepted (params : ActionParams)
  deriving DecidableEq, Repr, Inhabited

/-- `_ForceRefreshStartAction.__init__` (lines 1006-1037), with
`first_unit_to_refresh = self._units[0]` and `in_progress` passed from the
call site (line 1041-1043). -/
def forceRefreshStartValidation (event : Event) (firstUnitNumber : Nat)
    (thisUnitNumber : Nat) (inProgress : Bool) : ForceValidation :=
  match event with
  | .action name params =>
    if name = "force-refresh-start" then
    if thisUnitNumber = firstUnitNumber then
    if inProgress = false then .rejected "No refresh in progress"
    else if params.check_workload_container ∧ params.check_compatibility
        ∧ params.run_pre_refresh_checks then
      .rejected "Must run with at least one of `check-compatibility`, `run-pre-refresh-checks`, or `check-workload-container` parameters `=false`"
    else .accepted params
    else .rejected ("Must run action on unit " ++ toString firstUnitNumber)
    else .notAction
  | _ => .notAction

/-- The compatibility condition of `_start_refresh` (lines 1237-1255):
first component is the truth value of the whole Python `and` chain, the
second is whether `CharmSpecific.is_compatible` was actually invoked (the
`and` chain short-circuits before it unless the matched flag is set and the
installed container equals the pinned one). -/
def compatibilityCheck (env : Env) (v : OriginalVersions) : Bool × Bool :=
  if v.installed_workload_container_matched_pinned_container
      ∧ env.installedContainer = some env.pinnedContainer then
    (env.isCompatible v.charm env.installedCharmVersion (v.workload.getD "")
      env.pinnedWorkloadVersion, true)
  else (false, false)

/-- `self._refresh_started` as first computed in `_start_refresh`
(lines 1049-1058): the app controller revision is in some unit's
`refresh_started_if_app_controller_revision_hash_in` or in the app databag's
copy. -/
def refreshStartedAlready (env : Env) (myBag : UnitBag) (appBag : AppBag) : Bool :=
  env.units.any
    (fun u => env.appControllerRevision ∈ bagRefreshStartedHashes env myBag u)
  || decide (env.appControllerRevision
      ∈ appBag.refresh_started_if_app_controller_revision_hash_in.getD [])

/-- Result of `_start_refresh`: the updated databag/local state, the final
`self._refresh_started`, `self._unit_status_higher_priority`, action output,
plus instrumentation recording which of the three automatic checks were
actually evaluated (`ranContainerCheck`: the workload container comparison
at lines 1193-1197; `ranCompatPredicate`: a call of
`CharmSpecific.is_compatible`; `ranPreRefreshChecks`: a call of
`run_pre_refresh_checks_after_1_unit_refreshed`) and whether this call
certified (appended this unit's controller revision / touched
`kubernetes_refresh_started`). -/
structure StartRefreshResult where
  myBag : UnitBag
  localState : LocalState
  refreshStarted : Bool
  unitStatusHigherPriority : Option Status := Option.none
  msgs : List ActionMsg := []
  ranContainerCheck : Bool := false
  ranCompatPredicate : Bool := false
  ranPreRefreshChecks : Bool := false
  certified : Bool := false
  deriving DecidableEq, Repr, Inhabited

/-- Parameters of a validated force-refresh-start action, `None` when the
event is not one (mirrors the `try/except _InvalidForceEvent` at
lines 1039-1045). -/
def forceParamsOf (fv : ForceValidation) : Option ActionParams :=
  match fv with
  | .accepted p => some p
  | _ => Option.none

/-- Output of the `event.fail` call performed inside
`_ForceRefreshStartAction.__init__` when the validation rejects. -/
def forceFailMsgs (fv : ForceValidation) : List ActionMsg :=
  match fv with
  | .rejected m => [.fail m]
  | _ => []

/-- Tail of `_start_refresh` once every active check has passed
(lines 1342-1362): mark the refresh started, append this unit's controller
revision to its databag entry, touch `kubernetes_refresh_started`, and emit
the force-refresh-start action result. -/
def startRefreshCertify (env : Env) (unitCr : String) (myBag : UnitBag)
    (loc : LocalState) (force : Option ActionParams) (msgs : List ActionMsg)
    (ranContainer ranCompatPredicate ranPre : Bool) : StartRefreshResult :=
  let hashes :=
    appendIfMissing
      (myBag.refresh_started_if_app_controller_revision_hash_in.getD []) unitCr
  { myBag :=
      { myBag with
        refresh_started_if_app_controller_revision_hash_in := some hashes },
    localState := { loc with kubernetes_refresh_started := true },
    refreshStarted := true,
    msgs := msgs ++ (if force.isSome then
      [.result (env.workloadName ++ " refreshed on unit "
        ++ toString env.thisUnitNumber ++ ". Starting " ++ env.workloadName
        ++ " on unit " ++ toString env.thisUnitNumber)]
    else []),
    ranContainerCheck := ranContainer,
    ranCompatPredicate := ranCompatPredicate,
    ranPreRefreshChecks := ranPre,
    certified := true }

/-- Continuation of `_start_refresh` after the compatibility check stage:
the pre-refresh checks (lines 1315-1341) and certification on success
(lines 1342-1362). -/
def startRefreshAfterCompat (env : Env) (unitCr : String)
    (rollbackCommand : String) (myBag : UnitBag) (loc : LocalState)
    (force : Option ActionParams) (msgs : List ActionMsg)
    (ranContainer ranCompatPredicate : Bool) : StartRefreshResult :=
  let preSkipped : Bool :=
    match force with
    | some p => !p.run_pre_refresh_checks
    | Option.none => false
  if preSkipped then
    startRefreshCertify env unitCr myBag loc force
      (msgs ++ [.log "Skipping pre-refresh checks"]) ranContainer
      ranCompatPredicate false
  else
    let msgs1 := msgs ++ (if force.isSome then [.log "Running pre-refresh checks"] else [])
    match env.preRefreshAfterResult with
    | some message =>
      { myBag := myBag, localState := loc, refreshStarted := false,
        unitStatusHigherPriority := some (.blocked
          ("Rollback with `juju refresh`. Pre-refresh check failed: " ++ message)),
        msgs := msgs1 ++ (if force.isSome then
          [.fail ("Pre-refresh check failed: " ++ message
            ++ ". Rollback by running `" ++ rollbackCommand ++ "`")]
        else []),
        ranContainerCheck := ranContainer,
        ranCompatPredicate := ranCompatPredicate,
        ranPreRefreshChecks := true }
    | Option.none =>
      startRefreshCertify env unitCr myBag loc force
        (msgs1 ++ (if force.isSome then [.log "Pre-refresh checks successful"] else []))
        ranContainer ranCompatPredicate true

/-- Continuation of `_start_refresh` after the workload container stage:
the compatibility check (lines 1230-1314), then the pre-refresh stage. -/
def startRefreshAfterContainer (env : Env) (unitCr : String)
    (rollbackCommand : String) (myBag : UnitBag) (loc : LocalState)
    (originalVersions : OriginalVersions) (force : Option ActionParams)
    (msgs : List ActionMsg) (ranContainer : Bool) : StartRefreshResult :=
  let compatSkipped : Bool :=
    match force with
    | some p => !p.check_compatibility
    | Option.none => false
  if compatSkipped then
    startRefreshAfterCompat env unitCr rollbackCommand myBag loc force
      (msgs ++ [.log ("Skipping check for compatibility with previous "
        ++ env.workloadName ++ " version and charm revision")])
      ranContainer false
  else
    match compatibilityCheck env originalVersions with
    | (true, predicateCalled) =>
      startRefreshAfterCompat env unitCr rollbackCommand myBag loc force
        (msgs ++ (if force.isSome then
          [.log ("Checked that refresh from previous " ++ env.workloadName
            ++ " version and charm revision to current versions is compatible")]
        else []))
        ranContainer predicateCalled
    | (false, predicateCalled) =>
      { myBag := myBag, localState := loc, refreshStarted := false,
        unitStatusHigherPriority := some (.blocked
          "Refresh incompatible. Rollback with instructions in Charmhub docs or see `juju debug-log`"),
        msgs := msgs ++ (if force.isSome then
          [.fail ("Refresh incompatible. Rollback by running `"
            ++ rollbackCommand ++ "`")]
        else []),
        ranContainerCheck := ranContainer,
        ranCompatPredicate := predicateCalled }

/-- The workload-container check stage of `_start_refresh`
(lines 1187-1229), continuing into the compatibility and pre-refresh stages
when the container check is skipped or passes. -/
def startRefreshContainerStage (env : Env) (unitCr rollbackCommand : String)
    (myBag : UnitBag) (loc : LocalState) (originalVersions : OriginalVersions)
    (force : Option ActionParams) (msgs0 : List ActionMsg) :
    StartRefreshResult :=
  let containerSkipped : Bool :=
    match force with
    | some p => !p.check_workload_container
    | Option.none => false
  if containerSkipped then
    startRefreshAfterContainer env unitCr rollbackCommand myBag loc
      originalVersions force
      (msgs0 ++ [.log ("Skipping check that refresh is to " ++ env.workloadName
        ++ " container version that has been validated to work with the charm revision")])
      false
  else
    -- Check workload container (lines 1193-1229)
    if env.installedContainer = some env.pinnedContainer then
      startRefreshAfterContainer env unitCr rollbackCommand myBag loc
        originalVersions force
        (msgs0 ++ (if force.isSome then
          [.log ("Checked that refresh is to " ++ env.workloadName
            ++ "container version that has been validated to work with the charm revision")]
        else []))
        true
    else
      { myBag := myBag, localState := loc, refreshStarted := false,
        unitStatusHigherPriority := some (.blocked
          "`juju refresh` was run with missing/incorrect OCI resource. Rollback with instructions in docs or see `juju debug-log`"),
        msgs := msgs0 ++ (if force.isSome then
          [.fail ("Refresh is to " ++ env.workloadName
            ++ " container version that has not been validated to work with the charm revision. Rollback by running `"
            ++ rollbackCommand ++ "`")]
        else []),
        ranContainerCheck := true }

/-- `_Kubernetes._start_refresh` (lines 972-1362).  `rollbackCommand` is
`self._rollback_command` (computed in `__init__` whenever `in_progress`);
`unitCr` is `self._unit_controller_revision`. -/
def startRefresh (env : Env) (inProgress : Bool) (unitCr : String)
    (rollbackCommand : String) (myBag : UnitBag) (loc : LocalState)
    (appBag : AppBag) : Except Abort StartRefreshResult :=
  match env.units.head? with
  | Option.none => .error .indexError
  | some firstUnit =>
    let forceVal := forceRefreshStartValidation env.event firstUnit.number
      env.thisUnitNumber inProgress
    let msgs0 : List ActionMsg := forceFailMsgs forceVal
    let force : Option ActionParams := forceParamsOf forceVal
    if inProgress = false then
      -- line 1047-1048: early return; `self._refresh_started` is never
      -- assigned on this path (and never read later when not in progress)
      .ok { myBag := myBag, localState := loc, refreshStarted := false,
            msgs := msgs0 }
    else
    let refreshStarted0 := refreshStartedAlready env myBag appBag
    -- line 1075: `if not charm.unit == self._units[0]: return`
    if env.thisUnitNumber = firstUnit.number then
    -- line 1077: `if self._unit_controller_revision != self._app_controller_revision`
    if unitCr = env.appControllerRevision then
    if env.units.length ≤ 1 then
      -- line 1085: `assert len(self._units) > 1`
      .error .assertionError
    else
    match fromAppDatabag env.charmVersionParses appBag with
    | .error a => .error a
    | .ok originalVersions =>
      -- Rollback check (lines 1088-1129)
      let rollback : Bool := !refreshStarted0
        && decide (originalVersions.charm = env.installedCharmVersion)
        && decide (env.installedContainer = some originalVersions.workload_container)
      let rollbackHashes :=
        appendIfMissing
          (myBag.refresh_started_if_app_controller_revision_hash_in.getD []) unitCr
      let myBag1 := if rollback then
          { myBag with
            refresh_started_if_app_controller_revision_hash_in :=
              some rollbackHashes }
        else myBag
      let loc1 := if rollback then { loc with kubernetes_refresh_started := true }
        else loc
      let refreshStarted1 := refreshStarted0 || rollback
      if refreshStarted1 then
        -- lines 1130-1133
        .ok { myBag := myBag1, localState := loc1, refreshStarted := true,
              msgs := msgs0 ++
                (if force.isSome then [.fail "refresh already started"] else []),
              certified := rollback }
      else
      -- Run automatic checks (lines 1135-1362)
      .ok (startRefreshContainerStage env unitCr rollbackCommand myBag1 loc1
        originalVersions force msgs0)
    else
      -- line 1077-1082: this unit has not yet refreshed to the latest app
      -- revision
      .ok { myBag := myBag, localState := loc,
            refreshStarted := refreshStarted0,
            msgs := msgs0 ++
              (if force.isSome then
                [.fail ("Unit " ++ toString env.thisUnitNumber
                  ++ " has not yet refreshed to latest app revision")]
              else []) }
    else
      -- line 1075: this unit is not the first unit to refresh
      .ok { myBag := myBag, localState := loc,
            refreshStarted := refreshStarted0, msgs := msgs0 }

/-- Result of `_set_partition_and_app_status`: the partition after the call,
whether `_set_partition` was invoked (`patched`),
`self._app_status_higher_priority`, the status written to `charm.app_status`
(`none` when not written), and action output. -/
structure PartitionResult where
  partition : Nat
  patched : Bool := false
  appStatusHigherPriority : Option Status := Option.none
  appStatusWritten : Option Status := Option.none
  msgs : List ActionMsg := []
  deriving DecidableEq, Repr, Inhabited

/-- The `for index, unit in enumerate(self._units_not_tearing_down): if
unit.controller_revision != ...: break` idiom (lines 1426-1430): the loop
variables after the loop are the first unit whose controller revision
differs from the app's, or the last list element when none differs;
`none` when the list is empty (Python would raise `NameError`). -/
def nextUnitToRefresh (unitsNotTearingDown : List KUnit) (appCr : String) :
    Option (KUnit × Nat) :=
  match unitsNotTearingDown.findIdx? (fun u => u.controllerRevision ≠ appCr) with
  | some i => (unitsNotTearingDown.get? i).map (fun u => (u, i))
  | Option.none =>
    match unitsNotTearingDown.getLast? with
    | some u => some (u, unitsNotTearingDown.length - 1)
    | Option.none => Option.none

/-- The loop over `up_to_date_units` (lines 1458-1472): the first
already-up-to-date unit whose databag has not allowed the next unit to
refresh for the current app controller revision. -/
def firstUnhealthyUnit (env : Env) (myBag : UnitBag) (appCr : String)
    (upToDateUnits : List KUnit) : Option KUnit :=
  upToDateUnits.find? (fun u =>
    ((relationGet env myBag u).bind
        (·.next_unit_allowed_to_refresh_if_app_controller_revision_hash_equals))
      ≠ some appCr)

/-- `allow_next_unit_to_refresh` decision with its action output
(lines 1432-1514).  `action` is the (possibly cancelled) resume-refresh
action, `nextIdx`/`nextNum` are index and unit number of
`next_unit_to_refresh`, `firstUnitNumber` is `self._units[0].number`. -/
def allowNextUnitToRefresh (env : Env) (handleAction : Bool)
    (action : Option ActionParams) (refreshStarted : Bool)
    (pauseAfter : PauseAfter) (unitsNotTearingDown : List KUnit)
    (myBag : UnitBag) (nextIdx nextNum firstUnitNumber : Nat) :
    Bool × List ActionMsg :=
  if (match action with
      | some p => !p.check_health_of_refreshed_units
      | Option.none => false) then
    (true,
      if handleAction then
        [.log "Ignoring health of refreshed units",
         .result ("Attempting to refresh unit " ++ toString nextNum)]
      else [])
  else if !refreshStarted then
    (false,
      if handleAction && action.isSome then
        [.fail ("Unit " ++ toString firstUnitNumber
          ++ " is unhealthy. Refresh will not resume.")]
      else [])
  else
    match firstUnhealthyUnit env myBag env.appControllerRevision
        (unitsNotTearingDown.take nextIdx) with
    | some u =>
      (false,
        if handleAction && action.isSome then
          [.fail ("Unit " ++ toString u.number
            ++ " is unhealthy. Refresh will not resume.")]
        else [])
    | Option.none =>
      if action.isSome || decide (pauseAfter = PauseAfter.none)
          || (decide (pauseAfter = PauseAfter.first) && decide (nextIdx ≥ 2)) then
        (true,
          if handleAction && action.isSome then
            (if pauseAfter = PauseAfter.first then
              [.result ("Refresh resumed. Unit " ++ toString nextNum
                ++ " is refreshing next")]
            else
              [.result ("Unit " ++ toString nextNum ++ " is refreshing next")])
          else [])
      else (false, [])

/-- `_Kubernetes._set_partition_and_app_status` (lines 1364-1568).
`partition` is the current StatefulSet partition (`self._get_partition()`).
-/
def setPartitionAndAppStatus (env : Env) (handleAction : Bool)
    (inProgress refreshStarted : Bool) (pauseAfter : PauseAfter)
    (unitsNotTearingDown : List KUnit) (myBag : UnitBag) (partition : Nat) :
    Except Abort PartitionResult :=
  let action0 : Option ActionParams :=
    match env.event with
    | .action name p => if name = "resume-refresh" then some p else Option.none
    | _ => Option.none
  if env.isLeader = false then
    .ok { partition := partition,
          msgs := if handleAction && action0.isSome then
            [.fail ("Must run action on leader unit. (e.g. `juju run "
              ++ env.appName ++ "/leader resume-refresh`)")]
          else [] }
  else
  let appHigh0 : Option Status :=
    if pauseAfter = PauseAfter.unknown then
      some (.blocked "pause_after_unit_refresh config must be set to \"all\", \"first\", or \"none\"")
    else Option.none
  if inProgress = false then
    -- lines 1399-1407
    .ok { partition := 0, patched := decide (partition ≠ 0),
          appStatusHigherPriority := appHigh0,
          appStatusWritten := appHigh0,
          msgs := if handleAction && action0.isSome then
            [.fail "No refresh in progress"]
          else [] }
  else
  -- lines 1408-1418
  let cancel : Bool := handleAction && action0.isSome
      && decide (pauseAfter = PauseAfter.none)
      && (match action0 with
          | some p => p.check_health_of_refreshed_units
          | Option.none => false)
  let msgsCancel : List ActionMsg := if cancel then
      [.fail "`pause_after_unit_refresh` config is set to `none`. This action is not applicable."]
    else []
  let action : Option ActionParams := if cancel then Option.none else action0
  match nextUnitToRefresh unitsNotTearingDown env.appControllerRevision with
  | Option.none => .error .indexError
  | some (nextUnit, nextIdx) =>
    match env.units.head? with
    | Option.none => .error .indexError
    | some firstUnit =>
      let allowAndMsgs := allowNextUnitToRefresh env handleAction action
        refreshStarted pauseAfter unitsNotTearingDown myBag nextIdx
        nextUnit.number firstUnit.number
      let allow := allowAndMsgs.1
      -- lines 1516-1523
      let targetPartition :=
        if allow then nextUnit.number
        else ((unitsNotTearingDown.get? (nextIdx - 1)).getD nextUnit).number
      -- lines 1525-1534: only lower the partition, never raise it
      let partition1 :=
        if targetPartition < partition then targetPartition else partition
      -- lines 1544-1566
      match env.units.getLast? with
      | Option.none => .error .indexError
      | some lastUnit =>
        match unitsNotTearingDown.head? with
        | Option.none => .error .indexError
        | some ntdFirst =>
          let appHigh : Status :=
            if partition1 = lastUnit.number then
              .maintenance "Refreshing. To rollback, see docs or `juju debug-log`"
            else if decide (pauseAfter = PauseAfter.all)
                || (decide (pauseAfter = PauseAfter.first)
                    && decide (partition1 ≥ ntdFirst.number)) then
              .blocked ("Refreshing. Check units >=" ++ toString partition1
                ++ " are healthy & run `resume-refresh` on leader. To rollback, see docs or `juju debug-log`")
            else
              .maintenance ("Refreshing. To pause refresh, run `juju config "
                ++ env.appName ++ " pause_after_unit_refresh=all`")
          .ok { partition := partition1,
                patched := decide (targetPartition < partition),
                appStatusHigherPriority := some appHigh,
                appStatusWritten := some appHigh,
                msgs := msgsCancel ++ allowAndMsgs.2 }

/-- The `pause_after_unit_refresh_config` values observed among the "most up
to date" units (lines 1945-1959), provided both `self._units[0]` and
`self._units_not_tearing_down[0]` exist (otherwise the source raises
`IndexError` while the generator is consumed). -/
def pauseValuesOf (env : Env) (myBag : UnitBag)
    (unitsNotTearingDown : List KUnit) : Option (List String) :=
  match unitsNotTearingDown.head?, env.units.head? with
  | some ntdFirst, some unitsFirst =>
    let mostUpToDateUnits := env.units.filter (fun u =>
      u.controllerRevision = unitsFirst.controllerRevision
        ∨ u.controllerRevision = ntdFirst.controllerRevision)
    some (mostUpToDateUnits.filterMap (fun u =>
      (relationGet env myBag u).bind (·.pause_after_unit_refresh_config)))
  | _, _ => Option.none

/-- Determination of `self._pause_after` (lines 1928-1960):
`max(_PauseAfter(value) for value in pause_after_values)`.  Python's `max`
raises `ValueError` on an empty sequence; indexing `self._units[0]` or
`self._units_not_tearing_down[0]` raises `IndexError` on an empty list. -/
def computePauseAfter (env : Env) (myBag : UnitBag)
    (unitsNotTearingDown : List KUnit) : Except Abort PauseAfter :=
  match pauseValuesOf env myBag unitsNotTearingDown with
  | Option.none => .error .indexError
  | some [] => .error (.valueError "max() arg is an empty sequence")
  | some (v :: vs) =>
    .ok (PauseAfter.maxOf (PauseAfter.ofString v) (vs.map PauseAfter.ofString))

/-- `_Kubernetes.workload_allowed_to_start` (lines 849-874). -/
def workloadAllowedToStart (env : Env) (inProgress : Bool) (unitCr : String)
    (myBag : UnitBag) (appBag : AppBag) : Except Abort Bool :=
  if inProgress = false then .ok true
  else if env.units.any (fun u => unitCr ∈ bagRefreshStartedHashes env myBag u) then
    .ok true
  else if unitCr ∈ appBag.refresh_started_if_app_controller_revision_hash_in.getD [] then
    .ok true
  else
    match fromAppDatabag env.charmVersionParses appBag with
    | .error a => .error a
    | .ok originalVersions =>
      if originalVersions.charm = env.installedCharmVersion
          ∧ env.installedContainer = some originalVersions.workload_container then
        -- this unit has not refreshed
        .ok true
      else
        .ok false

/-- `_Kubernetes.next_unit_allowed_to_refresh` getter (lines 813-822). -/
def nextUnitAllowedToRefreshGet (myBag : UnitBag) (unitCr : String) : Bool :=
  myBag.next_unit_allowed_to_refresh_if_app_controller_revision_hash_equals
    = some unitCr

/-- Exceptions raised by the `next_unit_allowed_to_refresh` setter:
`ValueError` for a non-`True` value, a plain `Exception` when the workload
is not allowed to start. -/
inductive SetterRaised where
  | valueError (message : String)
  | exception (message : String)
  deriving DecidableEq, Repr, Inhabited

/-- Result of the `next_unit_allowed_to_refresh` setter: the raised
exception if any, the updated unit databag, whether the databag was written,
and the `_set_partition_and_app_status(handle_action=False)` call triggered
by a fresh write (`none` when no write happened). -/
structure SetterResult where
  raised : Option SetterRaised := Option.none
  myBag : UnitBag
  wrote : Bool := false
  partitionCall : Option PartitionResult := Option.none
  deriving DecidableEq, Repr, Inhabited

/-- `_Kubernetes.next_unit_allowed_to_refresh` setter (lines 824-847).
The surrounding evaluation state (`inProgress`, `pauseAfter`,
`refreshStarted`, `unitsNotTearingDown`, `partition`) is the one computed by
the `_Kubernetes.__init__` of the same Juju event. -/
def nextUnitAllowedToRefreshSet (env : Env) (inProgress refreshStarted : Bool)
    (pauseAfter : PauseAfter) (unitsNotTearingDown : List KUnit)
    (unitCr : String) (value : Bool) (myBag : UnitBag) (appBag : AppBag)
    (partition : Nat) : Except Abort SetterResult :=
  if value = false then
    -- line 826: `if value is not True: raise ValueError(...)`
    .ok { raised := some (.valueError "`next_unit_allowed_to_refresh` can only be set to `True`"),
          myBag := myBag }
  else
    match workloadAllowedToStart env inProgress unitCr myBag appBag with
    | .error a => .error a
    | .ok false =>
      .ok { raised := some (.exception "`next_unit_allowed_to_refresh` cannot be set to `True` when `workload_allowed_to_start` is `False`"),
            myBag := myBag }
    | .ok true =>
      -- line 833-838: write only when the stored hash differs
      if myBag.next_unit_allowed_to_refresh_if_app_controller_revision_hash_equals
          = some unitCr then
        .ok { myBag := myBag }
      else
        let myBag1 :=
          { myBag with
            next_unit_allowed_to_refresh_if_app_controller_revision_hash_equals :=
              some unitCr }
        match setPartitionAndAppStatus env false inProgress refreshStarted
            pauseAfter unitsNotTearingDown myBag1 partition with
        | .error a => .error a
        | .ok pr =>
          .ok { myBag := myBag1, wrote := true, partitionCall := some pr }

/-- `charm.event.departing_unit == charm.unit` for a
`RelationDepartedEvent` (unit names are equal iff app and number are). -/
def departingIsSelf (env : Env) : Bool :=
  match env.event with
  | .relationDeparted sameApp n => sameApp && decide (n = env.thisUnitNumber)
  | _ => false

/-- Lines 1745-1771: when another unit of this app departs the relation,
record its pod uid in this unit's databag and mirror the list to the local
JSON file (`assert len(uids) == 1` aborts when several pods share the
departing unit's number). -/
def recordDepartingUnit (env : Env) (myBag : UnitBag) (loc : LocalState) :
    Except Abort (UnitBag × LocalState) :=
  match env.event with
  | .relationDeparted sameApp n =>
    if sameApp then
      match (env.units.filter (fun u => u.number = n)).map (·.podUid) with
      | [] => .ok (myBag, loc)
      | [uid] =>
        let l := appendIfMissing
          (myBag.pod_uids_of_units_that_are_tearing_down.getD []) uid
        .ok ({ myBag with pod_uids_of_units_that_are_tearing_down := some l },
             { loc with
               kubernetes_pod_ids_of_units_that_are_tearing_down := some l })
      | _ => .error .assertionError
    else .ok (myBag, loc)
  | _ => .ok (myBag, loc)

/-- Lines 1773-1779: `tearing_down_uids` as the union over every unit's
databag (only membership is ever queried, so a concatenation models the
set). -/
def tearingDownUidsAll (env : Env) (myBag : UnitBag) : List String :=
  env.units.foldl (fun acc u => acc ++ bagTearingDownUids env myBag u) []

/-- Lines 1780-1783: `self._units_not_tearing_down`. -/
def unitsNotTearingDownOf (env : Env) (myBag : UnitBag) : List KUnit :=
  env.units.filter (fun u => u.podUid ∉ tearingDownUidsAll env myBag)

/-- Lines 1803-1818: the leader merges every unit's
`refresh_started_if_app_controller_revision_hash_in` into the app databag. -/
def mergeRefreshStartedToApp (env : Env) (myBag : UnitBag) (appBag : AppBag) :
    AppBag :=
  let merged := env.units.foldl
    (fun acc u => (bagRefreshStartedHashes env myBag u).foldl appendIfMissing acc)
    (appBag.refresh_started_if_app_controller_revision_hash_in.getD [])
  { appBag with
    refresh_started_if_app_controller_revision_hash_in := some merged }

/-- Lines 1962-1995: cleanup and version snapshot when no refresh is in
progress. -/
def cleanupNotInProgress (env : Env) (myBag : UnitBag) (appBag : AppBag)
    (loc : LocalState) : Except Abort (UnitBag × AppBag × LocalState) :=
  let myBag1 := { myBag with
    refresh_started_if_app_controller_revision_hash_in := Option.none,
    pod_uids_of_units_that_are_tearing_down := Option.none }
  let loc1 := { loc with
    kubernetes_refresh_started := false,
    kubernetes_pod_ids_of_units_that_are_tearing_down := Option.none }
  if env.isLeader then
    let appBag1 := { appBag with
      refresh_started_if_app_controller_revision_hash_in := Option.none }
    match env.installedContainer with
    | some installedContainer =>
      let matchesPin : Bool := installedContainer = env.pinnedContainer
      match mkOriginalVersions
          (if matchesPin then some env.pinnedWorkloadVersion else Option.none)
          installedContainer matchesPin env.installedCharmVersion
          env.installedCharmRevisionRaw with
      | .ok v => .ok (myBag1, writeToAppDatabag v appBag1, loc1)
      | .error m => .error (.valueError m)
    | Option.none => .ok (myBag1, appBag1, loc1)
  else .ok (myBag1, appBag, loc1)

/-- Lines 1997-2004: `self._rollback_command`. -/
def computeRollbackCommand (env : Env) (inProgress : Bool) (appBag : AppBag) :
    Except Abort (Option String) :=
  if inProgress ∨ (env.isLeader ∧ env.installedContainer.isSome) then
    match fromAppDatabag env.charmVersionParses appBag with
    | .error a => .error a
    | .ok v => .ok (some (rollbackCommandString env v))
  else .ok Option.none

/-- Lines 2009-2047: the `pre-refresh-check` action. -/
def preRefreshCheckAction (env : Env) (inProgress : Bool)
    (rollbackCommand : Option String) : List ActionMsg :=
  match env.event with
  | .action name _ =>
    if name = "pre-refresh-check" then
      if inProgress then [.fail "Refresh already in progress"]
      else if env.isLeader then
        match env.installedContainer with
        | Option.none =>
          [.fail ("Charm is not ready for refresh. Pre-refresh check failed: "
            ++ env.workloadName ++ " container is not running")]
        | some _ =>
          match env.preRefreshBeforeResult with
          | some message =>
            [.fail ("Charm is not ready for refresh. Pre-refresh check failed: "
              ++ message)]
          | Option.none =>
            [.result ("Charm is ready for refresh. For refresh instructions, see "
              ++ env.refreshUserDocsUrl
              ++ "\nAfter the refresh has started, use this command to rollback (copy this down in case you need it later):\n`"
              ++ (rollbackCommand.getD "") ++ "`")]
      else
        [.fail ("Must run action on leader unit. (e.g. `juju run "
          ++ env.appName ++ "/leader pre-refresh-check`)")]
    else []
  | _ => []

/-- Observable output of one trigger evaluation: action output in program
order, the two higher-priority statuses, the status written to
`charm.app_status`, the final partition, `self._refresh_started`, and the
check instrumentation of `_start_refresh`. -/
structure EvalOutput where
  actionMsgs : List ActionMsg := []
  unitStatusHigherPriority : Option Status := Option.none
  appStatusHigherPriority : Option Status := Option.none
  appStatusWritten : Option Status := Option.none
  partition : Nat := 0
  refreshStarted : Bool := false
  ranContainerCheck : Bool := false
  ranCompatPredicate : Bool := false
  ranPreRefreshChecks : Bool := false
  certified : Bool := false
  deriving DecidableEq, Repr, Inhabited

/-- Tail of `_Kubernetes.__init__` from line 1773 on (after the
departing-unit recording): `partition2`, `myBag4` and `loc2` are the
partition, unit databag and local state at that point, `appBag0` the app
databag (untouched so far). -/
def evalTail (env : Env) (inProgress : Bool) (unitCr : String)
    (partition2 : Nat) (myBag4 : UnitBag) (loc2 : LocalState)
    (appBag0 : AppBag) : Except (Abort × KState) (EvalOutput × KState) :=
  -- lines 1773-1783
  let unitsNotTearingDown := unitsNotTearingDownOf env myBag4
  -- lines 1785-1790
  let myBag5 := if env.event = Event.stop ∧ inProgress then
      { myBag4 with
        unused_controller_revision_during_last_stop_event := some unitCr }
    else myBag4
  -- lines 1792-1801: propagate kubernetes_refresh_started to the databag
  let propagatedHashes := appendIfMissing
    (myBag5.refresh_started_if_app_controller_revision_hash_in.getD []) unitCr
  let myBag6 := if loc2.kubernetes_refresh_started then
      { myBag5 with
        refresh_started_if_app_controller_revision_hash_in :=
          some propagatedHashes }
    else myBag5
  -- lines 1803-1818
  let appBag1 := if env.isLeader then
      mergeRefreshStartedToApp env myBag6 appBag0
    else appBag0
  -- lines 1820-1926 read files and the pod status; they are `Env` fields
  -- lines 1928-1960
  let sHere : KState := { partition := partition2, myBag := myBag6,
                          appBag := appBag1, localState := loc2 }
  match computePauseAfter env myBag6 unitsNotTearingDown with
  | .error a => .error (a, sHere)
  | .ok pauseAfter =>
    -- lines 1962-1995
    match (if inProgress then .ok (myBag6, appBag1, loc2)
      else cleanupNotInProgress env myBag6 appBag1 loc2 :
        Except Abort (UnitBag × AppBag × LocalState)) with
    | .error a => .error (a, sHere)
    | .ok (myBag7, appBag2, loc3) =>
      let sHere2 : KState := { partition := partition2, myBag := myBag7,
                               appBag := appBag2, localState := loc3 }
      -- lines 1997-2007
      match computeRollbackCommand env inProgress appBag2 with
      | .error a => .error (a, sHere2)
      | .ok rollbackCommand =>
        -- lines 2009-2047
        let preCheckMsgs := preRefreshCheckAction env inProgress rollbackCommand
        -- line 2049
        match startRefresh env inProgress unitCr (rollbackCommand.getD "")
            myBag7 loc3 appBag2 with
        | .error a => .error (a, sHere2)
        | .ok sr =>
          let sHere3 : KState := { partition := partition2,
                                   myBag := sr.myBag, appBag := appBag2,
                                   localState := sr.localState }
          -- line 2051
          match setPartitionAndAppStatus env true inProgress
              sr.refreshStarted pauseAfter unitsNotTearingDown sr.myBag
              partition2 with
          | .error a => .error (a, sHere3)
          | .ok pr =>
            .ok ({ actionMsgs := preCheckMsgs ++ sr.msgs ++ pr.msgs,
                   unitStatusHigherPriority := sr.unitStatusHigherPriority,
                   appStatusHigherPriority := pr.appStatusHigherPriority,
                   appStatusWritten := pr.appStatusWritten,
                   partition := pr.partition,
                   refreshStarted := sr.refreshStarted,
                   ranContainerCheck := sr.ranContainerCheck,
                   ranCompatPredicate := sr.ranCompatPredicate,
                   ranPreRefreshChecks := sr.ranPreRefreshChecks,
                   certified := sr.certified },
                 { partition := pr.partition, myBag := sr.myBag,
                   appBag := appBag2, localState := sr.localState })

/-- `_Kubernetes.__init__` (lines 1570-2051) as one per-trigger evaluation:
reads `Env`, transforms `KState`, produces `EvalOutput`.  An uncaught
exception is returned as `.error (abort, state-at-the-raise)`. -/
def evaluate (env : Env) (s0 : KState) :
    Except (Abort × KState) (EvalOutput × KState) :=
  -- lines 1574-1584: touch kubernetes_unit_tearing_down on this unit's own
  -- relation-departed event
  let loc0 := if departingIsSelf env then
      { s0.localState with kubernetes_unit_tearing_down := true }
    else s0.localState
  let s1 : KState := { s0 with localState := loc0 }
  -- lines 1586-1610: `juju trust` check
  if env.trusted = false then .error (.kubernetesJujuAppNotTrusted, s1)
  else
  -- lines 1612-1638: `next(unit for unit in self._units if unit == charm.unit)`
  match env.units.find? (fun u => u.number = env.thisUnitNumber) with
  | Option.none => .error (.indexError, s1)
  | some thisUnit =>
    let unitCr := thisUnit.controllerRevision
    -- lines 1640-1659: tearing-down short-circuit
    if loc0.kubernetes_unit_tearing_down then
      .error (.unitTearingDown,
        { s1 with localState :=
            { loc0 with kubernetes_unit_tearing_down_logged := true } })
    else
    -- lines 1661-1667
    let inProgress :=
      env.units.any (fun u => u.controllerRevision ≠ env.appControllerRevision)
    -- lines 1669-1687: raise partition during stop event
    let partition1 :=
      if env.event = Event.stop ∧ inProgress ∧ s0.partition < thisUnit.number
      then thisUnit.number
      else s0.partition
    let s2 : KState := { s1 with partition := partition1 }
    -- lines 1689-1691: peer relation presence
    if env.relationExists = false then .error (.peerRelationMissing, s2)
    else
    -- lines 1693-1718: raise partition after pod restart
    let raiseAfterRestart :=
      loc0.kubernetes_had_opportunity_to_raise_partition_after_pod_restart = false
        ∧ inProgress ∧ partition1 < thisUnit.number
    let partition2 := if raiseAfterRestart then thisUnit.number else partition1
    let myBag1 := if raiseAfterRestart then
        { s0.myBag with
          unused_pod_uid_after_pod_restart_and_partition_raised :=
            some thisUnit.podUid }
      else s0.myBag
    let loc1 := { loc0 with
      kubernetes_had_opportunity_to_raise_partition_after_pod_restart := true }
    -- lines 1720-1727: mirror the config value into this unit's databag
    let myBag2 :=
      { myBag1 with pause_after_unit_refresh_config := some env.pauseConfig }
    -- lines 1729-1743: propagate local tearing-down uids to the databag
    let myBag3 :=
      match loc1.kubernetes_pod_ids_of_units_that_are_tearing_down with
      | some uids =>
        let propagated := uids.foldl appendIfMissing
          (myBag2.pod_uids_of_units_that_are_tearing_down.getD [])
        { myBag2 with
          pod_uids_of_units_that_are_tearing_down := some propagated }
      | Option.none => myBag2
    -- lines 1745-1771
    match recordDepartingUnit env myBag3 loc1 with
    | .error a =>
      .error (a, { partition := partition2, myBag := myBag3,
                   appBag := s0.appBag, localState := loc1 })
    | .ok (myBag4, loc2) =>
      -- lines 1773-2051
      evalTail env inProgress unitCr partition2 myBag4 loc2 s0.appBag

/-- Inputs of one leader recomputation of the barrier (one call of
`_set_partition_and_app_status` with `in_progress` true). -/
structure LeaderStep where
  env : Env
  handleAction : Bool
  refreshStarted : Bool
  pauseAfter : PauseAfter
  unitsNotTearingDown : List KUnit
  myBag : UnitBag

/-- Partition after one leader recomputation; an uncaught exception leaves
the partition as it was (`_set_partition_and_app_status` raises, if at all,
before patching the partition). -/
def leaderRecomputePartition (st : LeaderStep) (p : Nat) : Nat :=
  match setPartitionAndAppStatus st.env st.handleAction true st.refreshStarted
      st.pauseAfter st.unitsNotTearingDown st.myBag p with
  | .ok r => r.partition
  | .error _ => p

/-- A concrete environment used to evaluate the embedding on closed inputs:
three units 2, 1, 0; units 2 and 1 already on the app's controller revision
`"B"`, unit 0 still on `"A"`; unit databags as given. -/
def envThree (event : Event) (isLeader : Bool) (bags : Nat → Option UnitBag) :
    Env :=
  { event := event, isLeader := isLeader, trusted := true,
    relationExists := true, appName := "app", appControllerRevision := "B",
    units := [⟨2, "B", "p2"⟩, ⟨1, "B", "p1"⟩, ⟨0, "A", "p0"⟩],
    thisUnitNumber := 2, unitBags := bags, pauseConfig := "all",
    installedCharmVersion := "14/1.2.0",
    installedCharmRevisionRaw := "ch:amd64/jammy/postgresql-k8s-382",
    pinnedWorkloadVersion := "14.12", pinnedContainer := "sha256:pin",
    installedContainer := some "sha256:pin", installedImageName := "reg/img",
    workloadName := "PostgreSQL", ociResourceName := "postgresql-image",
    refreshUserDocsUrl := "https://example.com/docs",
    isCompatible := fun _ _ _ _ => true,
    preRefreshAfterResult := Option.none,
    preRefreshBeforeResult := Option.none,
    charmVersionParses := fun _ => true }

/-- Environment for the pause aggregation instance: three units 2, 1, 0 all
on the app controller revision (all most up to date); unit 1's databag
carries `"all"`, unit 0 is missing from the relation (absent value); this
unit is 2 and its own databag (`myBagPauseFirst`) carries `"first"`. -/
def envPauseInstance : Env :=
  { envThree .other true
      (fun n =>
        if n = 1 then some { pause_after_unit_refresh_config := some "all" }
        else Option.none) with
    units := [⟨2, "B", "p2"⟩, ⟨1, "B", "p1"⟩, ⟨0, "B", "p0"⟩] }

/-- This unit's databag for the pause aggregation instance. -/
def myBagPauseFirst : UnitBag :=
  { pause_after_unit_refresh_config := some "first" }

/-- Environment whose units are all missing from the peer relation, so that
no `pause_after_unit_refresh_config` value is observable; `thisUnitNumber`
is 5 so even this unit's own databag is not among the units. -/
def envPauseEmpty : Env :=
  { envThree .other true (fun _ => Option.none) with thisUnitNumber := 5 }

/-- A last version snapshot: charm `14/1.0.0` with container
`sha256:orig`. -/
def originalsFixture : OriginalVersions :=
  ⟨some "14.11", "sha256:orig", true, "14/1.0.0",
    "ch:amd64/jammy/postgresql-k8s-350"⟩

/-- Environment for the idempotence counterexample: leader unit 2 (highest,
already on the target controller revision `"B"`, unit 1 still on `"A"`)
receives a `force-refresh-start` action bypassing the compatibility and
pre-refresh checks. -/
def envForceReplay : Env :=
  { event := .action "force-refresh-start"
      { check_workload_container := true, check_compatibility := false,
        run_pre_refresh_checks := false,
        check_health_of_refreshed_units := true },
    isLeader := true, trusted := true, relationExists := true,
    appName := "app", appControllerRevision := "B",
    units := [⟨2, "B", "p2"⟩, ⟨1, "A", "p1"⟩], thisUnitNumber := 2,
    unitBags := fun _ => Option.none, pauseConfig := "all",
    installedCharmVersion := "14/1.2.0",
    installedCharmRevisionRaw := "ch:amd64/jammy/postgresql-k8s-382",
    pinnedWorkloadVersion := "14.12", pinnedContainer := "sha256:pin",
    installedContainer := some "sha256:pin", installedImageName := "reg/img",
    workloadName := "PostgreSQL", ociResourceName := "postgresql-image",
    refreshUserDocsUrl := "https://example.com/docs",
    isCompatible := fun _ _ _ _ => true,
    preRefreshAfterResult := Option.none,
    preRefreshBeforeResult := Option.none,
    charmVersionParses := fun _ => true }

/-- Initial state for the idempotence counterexample: partition 2, empty
unit databag, app databag carrying the `originalsFixture` snapshot, fresh
local state. -/
def stateForceReplay : KState :=
  { partition := 2, myBag := {},
    appBag := { originals := some originalsFixture }, localState := {} }

/-- First evaluation of the force-refresh-start trigger. -/
def runForceReplay1 : Except (Abort × KState) (EvalOutput × KState) :=
  evaluate envForceReplay stateForceReplay

/-- Output and state of the first evaluation (it succeeds). -/
def resultForceReplay1 : EvalOutput × KState :=
  match runForceReplay1 with
  | .ok r => r
  | .error _ => default

/-- Second evaluation, on the state left by the first, with byte-identical
environment. -/
def runForceReplay2 : Except (Abort × KState) (EvalOutput × KState) :=
  evaluate envForceReplay resultForceReplay1.2

/-- Output and state of the second evaluation (it succeeds). -/
def resultForceReplay2 : EvalOutput × KState :=
  match runForceReplay2 with
  | .ok r => r
  | .error _ => default

/-- Shape of the unit databag after a successful certification of a refresh
start (lines 1332-1340: the unit appends the app controller revision to its
refresh-started hash list). -/
def certifyBag (b : UnitBag) (unitCr : String) : UnitBag :=
  let hashes := appendIfMissing
    (b.refresh_started_if_app_controller_revision_hash_in.getD []) unitCr
  { b with refresh_started_if_app_controller_revision_hash_in := some hashes }

/-- Shape of the local unit state file after a successful certification
(line 1331: the refresh-started flag is written). -/
def certifyLoc (l : LocalState) : LocalState :=
  { l with kubernetes_refresh_started := true }

/-- C9: the pause-policy type `_PauseAfter` is totally ordered with
none < first < all < unknown — its comparison `__gt__` is a strict total
order (irreflexive, transitive, total on distinct values) consistent with
the priorities 0, 1, 2, 3 — and constructing `_PauseAfter` from any string
other than `"none"`, `"first"`, `"all"`, `"unknown"` yields `UNKNOWN`
rather than raising. -/
theorem refresh_C9 :
    (∀ a : PauseAfter, ¬ PauseAfter.gt a a = true)
    ∧ (∀ a b c : PauseAfter, PauseAfter.gt a b = true →
        PauseAfter.gt b c = true → PauseAfter.gt a c = true)
    ∧ (∀ a b : PauseAfter, a ≠ b →
        PauseAfter.gt a b = true ∨ PauseAfter.gt b a = true)
    ∧ (∀ a b : PauseAfter,
        PauseAfter.gt a b = true ↔ b.priority < a.priority)
    ∧ PauseAfter.gt PauseAfter.first PauseAfter.none = true
    ∧ PauseAfter.gt PauseAfter.all PauseAfter.first = true
    ∧ PauseAfter.gt PauseAfter.unknown PauseAfter.all = true
    ∧ (∀ s : String, s ≠ "none" → s ≠ "first" → s ≠ "all" → s ≠ "unknown" →
        PauseAfter.ofString s = PauseAfter.unknown) := by
  refine ⟨?_, ?_, ?_, ?_, by decide, by decide, by decide, ?_⟩
  · intro a; cases a <;> decide
  · intro a b c; cases a <;> cases b <;> cases c <;> decide
  · intro a b; cases a <;> cases b <;> decide
  · intro a b; cases a <;> cases b <;> decide
  · intro s h1 h2 h3 h4
    simp [PauseAfter.ofString, h1, h2, h3, h4]

/-- C9 witness: the theorem applied at concrete inputs (transitivity at
none < first < all, coercion at the unrecognized string `"bogus"`). -/
theorem refresh_C9_witness :
    PauseAfter.gt PauseAfter.all PauseAfter.none = true
    ∧ PauseAfter.ofString "bogus" = PauseAfter.unknown :=
  ⟨refresh_C9.2.1 PauseAfter.all PauseAfter.first PauseAfter.none
      (by decide) (by decide),
    refresh_C9.2.2.2.2.2.2.2 "bogus" (by decide) (by decide) (by decide)
      (by decide)⟩

/-- C8: every successfully constructed `_OriginalVersions` satisfies the
biconditional "workload version present iff the matched flag is true";
constructions violating it raise `ValueError`
(`mkOriginalVersions` errs exactly when the biconditional fails); every
snapshot read back from the app databag satisfies the invariant; and the
snapshot written to the app databag by the leader when no refresh is in
progress satisfies it as well (the app databag's `originals` either stays
unchanged or receives an invariant-satisfying snapshot). -/
theorem refresh_C8 :
    (∀ (w : Option String) (c : String) (m : Bool) (cv cr : String),
      (∃ v, mkOriginalVersions w c m cv cr = .ok v)
        ↔ (w ≠ Option.none ↔ m = true))
    ∧ (∀ (w : Option String) (c : String) (m : Bool) (cv cr : String) v,
        mkOriginalVersions w c m cv cr = .ok v →
        (v.workload ≠ Option.none
          ↔ v.installed_workload_container_matched_pinned_container = true))
    ∧ (∀ (parses : String → Bool) (bag : AppBag) v,
        fromAppDatabag parses bag = .ok v →
        (v.workload ≠ Option.none
          ↔ v.installed_workload_container_matched_pinned_container = true))
    ∧ (∀ (env : Env) (myBag : UnitBag) (appBag : AppBag) (loc : LocalState)
        (myBag1 : UnitBag) (appBag1 : AppBag) (loc1 : LocalState),
        cleanupNotInProgress env myBag appBag loc = .ok (myBag1, appBag1, loc1) →
        appBag1.originals = appBag.originals
          ∨ ∃ v, appBag1.originals = some v
              ∧ (v.workload ≠ Option.none
                ↔ v.installed_workload_container_matched_pinned_container = true)) := by
  have hmk : ∀ (w : Option String) (c : String) (m : Bool) (cv cr : String) v,
      mkOriginalVersions w c m cv cr = .ok v →
      v = ⟨w, c, m, cv, cr⟩ ∧ (w ≠ Option.none ↔ m = true) := by
    intro w c m cv cr v h
    cases m <;> cases w <;> simp [mkOriginalVersions] at h <;> simp_all
  refine ⟨?_, ?_, ?_, ?_⟩
  · intro w c m cv cr
    constructor
    · rintro ⟨v, hv⟩
      exact (hmk w c m cv cr v hv).2
    · intro hiff
      refine ⟨⟨w, c, m, cv, cr⟩, ?_⟩
      unfold mkOriginalVersions
      cases m <;> cases w <;> simp_all
  · intro w c m cv cr v h
    obtain ⟨rfl, hiff⟩ := hmk w c m cv cr v h
    exact hiff
  · intro parses bag v h
    unfold fromAppDatabag at h
    split at h
    · exact absurd h (by simp)
    · rename_i r
      split at h
      · split at h
        · rename_i hv
          cases h
          obtain ⟨rfl, hiff⟩ := hmk _ _ _ _ _ _ hv
          exact hiff
        · exact absurd h (by simp)
      · exact absurd h (by simp)
  · intro env myBag appBag loc myBag1 appBag1 loc1 h
    unfold cleanupNotInProgress at h
    cases hL : env.isLeader with
    | false =>
      simp only [hL, Bool.false_eq_true, if_false] at h
      cases h
      left; rfl
    | true =>
      simp only [hL, if_true] at h
      cases hC : env.installedContainer with
      | none =>
        simp only [hC] at h
        cases h
        left; rfl
      | some ic =>
        simp only [hC] at h
        cases hv : mkOriginalVersions
            (if decide (ic = env.pinnedContainer) = true
              then some env.pinnedWorkloadVersion else Option.none)
            ic (decide (ic = env.pinnedContainer)) env.installedCharmVersion
            env.installedCharmRevisionRaw with
        | ok v =>
          rw [hv] at h
          cases h
          obtain ⟨hveq, hiff⟩ := hmk _ _ _ _ _ _ hv
          subst hveq
          right
          exact ⟨_, rfl, hiff⟩
        | error m =>
          rw [hv] at h
          cases h

/-- C8 witness: the theorem applied at concrete inputs — a valid snapshot
construction (workload present, matched flag true) and a read back from a
databag carrying `originalsFixture`. -/
theorem refresh_C8_witness :
    ((some "14.11" : Option String) ≠ Option.none ↔ true = true)
    ∧ (originalsFixture.workload ≠ Option.none
        ↔ originalsFixture.installed_workload_container_matched_pinned_container
          = true) :=
  ⟨(refresh_C8.1 (some "14.11") "sha256:orig" true "14/1.0.0"
        "ch:amd64/jammy/postgresql-k8s-350").1
      ⟨originalsFixture, by rfl⟩,
    refresh_C8.2.2.1 (fun _ => true) { originals := some originalsFixture }
      originalsFixture (by rfl)⟩

/-- Helper: the Python-`max` fold always returns an element of the
sequence. -/
theorem pauseAfter_maxOf_mem (v : PauseAfter) (vs : List PauseAfter) :
    PauseAfter.maxOf v vs ∈ v :: vs := by
  induction vs generalizing v with
  | nil => simp [PauseAfter.maxOf]
  | cons x xs ih =>
    have h := ih (if PauseAfter.gt x v then x else v)
    simp only [PauseAfter.maxOf, List.foldl_cons] at *
    rcases List.mem_cons.mp h with h1 | h1
    · rw [h1]
      split <;> simp
    · simp [h1]

/-- Helper: the Python-`max` fold bounds every element of the sequence from
above (in `__gt__` priority order). -/
theorem pauseAfter_maxOf_le (v : PauseAfter) (vs : List PauseAfter) :
    ∀ q ∈ v :: vs, q.priority ≤ (PauseAfter.maxOf v vs).priority := by
  induction vs generalizing v with
  | nil => simp [PauseAfter.maxOf]
  | cons x xs ih =>
    intro q hq
    have hstep : PauseAfter.maxOf v (x :: xs)
        = PauseAfter.maxOf (if PauseAfter.gt x v then x else v) xs := by
      simp [PauseAfter.maxOf]
    rw [hstep]
    have hvle : v.priority ≤ (if PauseAfter.gt x v then x else v).priority := by
      split
      · rename_i hgt
        simp only [PauseAfter.gt, decide_eq_true_eq] at hgt
        omega
      · exact le_refl _
    have hxle : x.priority ≤ (if PauseAfter.gt x v then x else v).priority := by
      split
      · exact le_refl _
      · rename_i hgt
        simp only [PauseAfter.gt, decide_eq_true_eq] at hgt
        omega
    have hhead := ih (if PauseAfter.gt x v then x else v)
      (if PauseAfter.gt x v then x else v) (by simp)
    rcases List.mem_cons.mp hq with rfl | hq1
    · exact le_trans hvle hhead
    · rcases List.mem_cons.mp hq1 with rfl | hq2
      · exact le_trans hxle hhead
      · exact ih (if PauseAfter.gt x v then x else v) q (by simp [hq2])

/-- C5 counterexample: the claim asserts that when the most-up-to-date
subset yields no pause values at all, the effective policy defaults to
`unknown`.  On the code, `max()` over the empty sequence of values raises
`ValueError` instead (the trigger evaluation aborts): with every unit
missing from the peer relation, `computePauseAfter` is the `ValueError`
abort and in particular is not `UNKNOWN`. -/
theorem refresh_C5_counterexample :
    computePauseAfter envPauseEmpty {} (unitsNotTearingDownOf envPauseEmpty {})
      = .error (.valueError "max() arg is an empty sequence")
    ∧ computePauseAfter envPauseEmpty {}
        (unitsNotTearingDownOf envPauseEmpty {})
      ≠ .ok PauseAfter.unknown := by
  refine ⟨by rfl, ?_⟩
  intro h
  rw [show computePauseAfter envPauseEmpty {}
      (unitsNotTearingDownOf envPauseEmpty {})
    = .error (.valueError "max() arg is an empty sequence") from rfl] at h
  exact Except.noConfusion h

/-- C5 amended: the effective pause policy is the maximum `_PauseAfter`
value (priority order none < first < all < unknown) among the
`pause_after_unit_refresh_config` values present in the databags of the
most-up-to-date units (units whose controller revision equals that of the
highest unit or of the highest non-tearing-down unit), absent values
excluded: the computed policy is one of the observed values and bounds all
of them from above.  In particular, from observed values
{`first`, `all`, absent} the result is `all`.  When the subset yields no
values at all, the evaluation raises `ValueError` (Python `max()` on an
empty sequence) — it does not default to `unknown`. -/
theorem refresh_C5_amended :
    (∀ (env : Env) (myBag : UnitBag) (ntd : List KUnit) (v : String)
        (vs : List String),
      pauseValuesOf env myBag ntd = some (v :: vs) →
      ∃ p, computePauseAfter env myBag ntd = .ok p
        ∧ p ∈ (v :: vs).map PauseAfter.ofString
        ∧ ∀ q ∈ (v :: vs).map PauseAfter.ofString, q.priority ≤ p.priority)
    ∧ (∀ (env : Env) (myBag : UnitBag) (ntd : List KUnit),
        pauseValuesOf env myBag ntd = some [] →
        computePauseAfter env myBag ntd
          = .error (.valueError "max() arg is an empty sequence"))
    ∧ pauseValuesOf envPauseInstance myBagPauseFirst
        (unitsNotTearingDownOf envPauseInstance myBagPauseFirst)
      = some ["first", "all"]
    ∧ computePauseAfter envPauseInstance myBagPauseFirst
        (unitsNotTearingDownOf envPauseInstance myBagPauseFirst)
      = .ok PauseAfter.all := by
  refine ⟨?_, ?_, by rfl, by rfl⟩
  · intro env myBag ntd v vs h
    unfold computePauseAfter
    rw [h]
    refine ⟨PauseAfter.maxOf (PauseAfter.ofString v)
      (vs.map PauseAfter.ofString), rfl, ?_, ?_⟩
    · exact pauseAfter_maxOf_mem (PauseAfter.ofString v)
        (vs.map PauseAfter.ofString)
    · exact pauseAfter_maxOf_le (PauseAfter.ofString v)
        (vs.map PauseAfter.ofString)
  · intro env myBag ntd h
    unfold computePauseAfter
    rw [h]

/-- C5 amended witness: the theorem applied at the concrete
{`first`, `all`, absent} instance, where the computed policy is `all`. -/
theorem refresh_C5_amended_witness :
    ∃ p, computePauseAfter envPauseInstance myBagPauseFirst
        (unitsNotTearingDownOf envPauseInstance myBagPauseFirst) = .ok p
      ∧ p ∈ (["first", "all"] : List String).map PauseAfter.ofString
      ∧ ∀ q ∈ (["first", "all"] : List String).map PauseAfter.ofString,
          q.priority ≤ p.priority :=
  refresh_C5_amended.1 envPauseInstance myBagPauseFirst
    (unitsNotTearingDownOf envPauseInstance myBagPauseFirst) "first" ["all"]
    (by rfl)

/-- C2 counterexample: the claim asserts that a `force-refresh-start`
invocation whose parameters bypass all three checks simultaneously
(`check-workload-container=false`, `check-compatibility=false`,
`run-pre-refresh-checks=false`) is rejected with an action failure.  On the
code it is accepted: `_ForceRefreshStartAction.__init__` fails only when
no parameter is `false` (all three checks left active). -/
theorem refresh_C2_counterexample :
    forceRefreshStartValidation
      (.action "force-refresh-start"
        { check_workload_container := false, check_compatibility := false,
          run_pre_refresh_checks := false,
          check_health_of_refreshed_units := true })
      2 2 true
    = .accepted
      { check_workload_container := false, check_compatibility := false,
        run_pre_refresh_checks := false,
        check_health_of_refreshed_units := true } := by
  decide

/-- C2 amended: a `force-refresh-start` invocation (on the first unit to
refresh, with a refresh in progress) is accepted iff at least one of the
three check parameters is `false` — bypassing any nonempty subset of the
three checks, including all three simultaneously, is accepted, while an
invocation that bypasses no check (all three parameters `true`) is rejected
with the action failure "Must run with at least one of
`check-compatibility`, `run-pre-refresh-checks`, or
`check-workload-container` parameters `=false`". -/
theorem refresh_C2_amended :
    ∀ (params : ActionParams) (n : Nat),
      (forceRefreshStartValidation (.action "force-refresh-start" params) n n
          true
        = .accepted params
        ↔ (params.check_workload_container = false
            ∨ params.check_compatibility = false
            ∨ params.run_pre_refresh_checks = false))
      ∧ ((params.check_workload_container ∧ params.check_compatibility
            ∧ params.run_pre_refresh_checks) →
          forceRefreshStartValidation (.action "force-refresh-start" params)
            n n true
          = .rejected "Must run with at least one of `check-compatibility`, `run-pre-refresh-checks`, or `check-workload-container` parameters `=false`") := by
  intro params n
  obtain ⟨cwc, cc, rprc, chru⟩ := params
  cases cwc <;> cases cc <;> cases rprc <;>
    simp [forceRefreshStartValidation]

/-- C2 amended witness: the theorem applied at a concrete input — on unit 2
with all three parameters `true` the action is rejected. -/
theorem refresh_C2_amended_witness :
    forceRefreshStartValidation
      (.action "force-refresh-start"
        { check_workload_container := true, check_compatibility := true,
          run_pre_refresh_checks := true,
          check_health_of_refreshed_units := true })
      2 2 true
    = .rejected "Must run with at least one of `check-compatibility`, `run-pre-refresh-checks`, or `check-workload-container` parameters `=false`" :=
  (refresh_C2_amended
    { check_workload_container := true, check_compatibility := true,
      run_pre_refresh_checks := true, check_health_of_refreshed_units := true }
    2).2 ⟨rfl, rfl, rfl⟩

/-- C6: when the refresh is certified (`refresh_started` true) and every
up-to-date, non-tearing-down unit has signalled allow-next for the current
app controller revision, automatic progression (no resume-refresh action)
is permitted iff the pause policy permits it: `none` always permits;
`first` permits only once the next unit to refresh is at index >= 2 in the
refresh order (at least two units already advanced); `all` never permits
automatically (and neither does `unknown`). -/
theorem refresh_C6 :
    ∀ (env : Env) (handleAction : Bool) (pauseAfter : PauseAfter)
      (unitsNotTearingDown : List KUnit) (myBag : UnitBag)
      (nextIdx nextNum firstUnitNumber : Nat),
      (∀ u ∈ unitsNotTearingDown.take nextIdx,
        ((relationGet env myBag u).bind
            (·.next_unit_allowed_to_refresh_if_app_controller_revision_hash_equals))
          = some env.appControllerRevision) →
      ((allowNextUnitToRefresh env handleAction Option.none true pauseAfter
          unitsNotTearingDown myBag nextIdx nextNum firstUnitNumber).1 = true
        ↔ (pauseAfter = PauseAfter.none
            ∨ (pauseAfter = PauseAfter.first ∧ 2 ≤ nextIdx))) := by
  intro env handleAction pauseAfter ntd myBag nextIdx nextNum firstNum hall
  have hnone : firstUnhealthyUnit env myBag env.appControllerRevision
      (ntd.take nextIdx) = Option.none := by
    unfold firstUnhealthyUnit
    rw [List.find?_eq_none]
    intro u hu
    simp [hall u hu]
  unfold allowNextUnitToRefresh
  rw [hnone]
  simp only [Bool.not_true, Bool.false_eq_true, if_false, Option.isSome_none,
    Bool.false_or, ge_iff_le]
  split
  · rename_i hcond
    simp only [Bool.or_eq_true, Bool.and_eq_true, decide_eq_true_eq] at hcond
    simpa using hcond
  · rename_i hcond
    simp only [Bool.or_eq_true, Bool.and_eq_true, decide_eq_true_eq,
      not_or, not_and] at hcond
    simpa using hcond

/-- C6 witness: the theorem applied at a concrete input — pause policy
`first` with the next unit to refresh at index 2 (two units already
advanced, both having allowed the next unit): progression is permitted. -/
theorem refresh_C6_witness :
    (allowNextUnitToRefresh
        (envThree .other true
          (fun _ => some
            { next_unit_allowed_to_refresh_if_app_controller_revision_hash_equals :=
                some "B" }))
        true Option.none true PauseAfter.first
        [⟨2, "B", "p2"⟩, ⟨1, "B", "p1"⟩, ⟨0, "A", "p0"⟩]
        { next_unit_allowed_to_refresh_if_app_controller_revision_hash_equals :=
            some "B" }
        2 0 2).1 = true
      ↔ (PauseAfter.first = PauseAfter.none
          ∨ (PauseAfter.first = PauseAfter.first ∧ 2 ≤ 2)) :=
  refresh_C6
    (envThree .other true
      (fun _ => some
        { next_unit_allowed_to_refresh_if_app_controller_revision_hash_equals :=
            some "B" }))
    true PauseAfter.first
    [⟨2, "B", "p2"⟩, ⟨1, "B", "p1"⟩, ⟨0, "A", "p0"⟩]
    { next_unit_allowed_to_refresh_if_app_controller_revision_hash_equals :=
        some "B" }
    2 0 2 (by decide)

/-- Helper: one call of `_set_partition_and_app_status` never raises the
partition, and patches it exactly when the result is strictly lower. -/
theorem setPartition_result_le
    (env : Env) (handleAction inProgress refreshStarted : Bool)
    (pauseAfter : PauseAfter) (unitsNotTearingDown : List KUnit)
    (myBag : UnitBag) (partition : Nat) (r : PartitionResult)
    (h : setPartitionAndAppStatus env handleAction inProgress refreshStarted
        pauseAfter unitsNotTearingDown myBag partition = .ok r) :
    r.partition ≤ partition ∧ (r.patched = true ↔ r.partition < partition) := by
  unfold setPartitionAndAppStatus at h
  cases hL : env.isLeader with
  | false =>
    simp only [hL] at h
    cases h
    simp
  | true =>
    simp only [hL, Bool.true_eq_false, if_false] at h
    cases hP : inProgress with
    | false =>
      simp only [hP, if_true] at h
      cases h
      simp only [decide_eq_true_eq]
      omega
    | true =>
      simp only [hP, Bool.true_eq_false, if_false] at h
      cases hnu : nextUnitToRefresh unitsNotTearingDown
          env.appControllerRevision with
      | none => rw [hnu] at h; exact absurd h (by simp)
      | some pr =>
        obtain ⟨nextUnit, nextIdx⟩ := pr
        rw [hnu] at h
        cases hhd : env.units.head? with
        | none => rw [hhd] at h; exact absurd h (by simp)
        | some firstUnit =>
          rw [hhd] at h
          cases hlast : env.units.getLast? with
          | none => rw [hlast] at h; exact absurd h (by simp)
          | some lastUnit =>
            rw [hlast] at h
            cases hfst : unitsNotTearingDown.head? with
            | none => rw [hfst] at h; exact absurd h (by simp)
            | some ntdFirst =>
              rw [hfst] at h
              cases h
              dsimp only
              have hgen : ∀ T : Nat,
                  (if T < partition then T else partition) ≤ partition
                  ∧ (decide (T < partition) = true
                      ↔ (if T < partition then T else partition) < partition) := by
                intro T
                refine ⟨by split <;> omega, ?_, ?_⟩
                · intro hp
                  simp only [decide_eq_true_eq] at hp
                  rw [if_pos hp]
                  exact hp
                · intro hp
                  simp only [decide_eq_true_eq]
                  by_contra hc
                  rw [if_neg hc] at hp
                  omega
              exact ⟨(hgen _).1, (hgen _).2⟩

/-- C1: the admission barrier (StatefulSet partition) is written by the
barrier/status policy (`_set_partition_and_app_status`, with a refresh in
progress) only when the computed target partition is strictly lower than
the currently applied partition — the resulting partition is patched iff it
is strictly lower, and is never higher; consequently, across any sequence
of leader recomputations the applied partition value is non-increasing. -/
theorem refresh_C1 :
    (∀ (env : Env) (handleAction refreshStarted : Bool)
        (pauseAfter : PauseAfter) (unitsNotTearingDown : List KUnit)
        (myBag : UnitBag) (partition : Nat) (r : PartitionResult),
      setPartitionAndAppStatus env handleAction true refreshStarted pauseAfter
          unitsNotTearingDown myBag partition = .ok r →
      r.partition ≤ partition ∧ (r.patched = true ↔ r.partition < partition))
    ∧ (∀ (steps : List LeaderStep) (p0 : Nat),
        List.Chain' (fun a b => b ≤ a)
          (List.scanl (fun p st => leaderRecomputePartition st p) p0 steps)) := by
  constructor
  · intro env handleAction refreshStarted pauseAfter ntd myBag partition r h
    exact setPartition_result_le env handleAction true refreshStarted
      pauseAfter ntd myBag partition r h
  · have hstep : ∀ (st : LeaderStep) (p : Nat),
        leaderRecomputePartition st p ≤ p := by
      intro st p
      unfold leaderRecomputePartition
      cases hr : setPartitionAndAppStatus st.env st.handleAction true
          st.refreshStarted st.pauseAfter st.unitsNotTearingDown st.myBag p with
      | ok r =>
        exact (setPartition_result_le st.env st.handleAction true
          st.refreshStarted st.pauseAfter st.unitsNotTearingDown st.myBag p r
          hr).1
      | error a => exact le_refl p
    intro steps p0
    induction steps generalizing p0 with
    | nil => simp
    | cons st sts ih =>
      rw [List.scanl]
      have hhead : ∀ (b : Nat) (l : List LeaderStep),
          (List.scanl (fun p st => leaderRecomputePartition st p) b l).head?
            = some b := by
        intro b l
        cases l <;> simp [List.scanl]
      rw [List.chain'_cons']
      constructor
      · intro y hy
        rw [hhead] at hy
        cases hy
        exact hstep st p0
      · exact ih (leaderRecomputePartition st p0)

/-- C1 witness: the theorem applied at a concrete input — a leader
recomputation (refresh certified, pause policy `none`, next unit 1) lowers
the partition from 2 to 1 and reports the patch. -/
theorem refresh_C1_witness :
    (setPartitionAndAppStatus
          (envThree .other true
            (fun _ => some
              { next_unit_allowed_to_refresh_if_app_controller_revision_hash_equals :=
                  some "B" }))
          true true true PauseAfter.none
          [⟨2, "B", "p2"⟩, ⟨1, "B", "p1"⟩, ⟨0, "A", "p0"⟩]
          { next_unit_allowed_to_refresh_if_app_controller_revision_hash_equals :=
              some "B" }
          2).map (fun r => (r.partition, r.patched))
      = .ok (0, true)
    ∧ (0 : Nat) ≤ 2 ∧ (true = true ↔ (0 : Nat) < 2) := by
  have h := refresh_C1.1
    (envThree .other true
      (fun _ => some
        { next_unit_allowed_to_refresh_if_app_controller_revision_hash_equals :=
            some "B" }))
    true true PauseAfter.none
    [⟨2, "B", "p2"⟩, ⟨1, "B", "p1"⟩, ⟨0, "A", "p0"⟩]
    { next_unit_allowed_to_refresh_if_app_controller_revision_hash_equals :=
        some "B" }
    2 _ (by rfl)
  exact ⟨by rfl, h.1, by simp⟩

/-- Helper: under the self-certification preconditions (this unit is the
highest, it is on the app controller revision, a refresh is in progress,
more than one unit exists, the refresh has not already started), the
`_start_refresh` body reduces to the rollback test followed by the check
stages. -/
theorem startRefresh_reduces
    (env : Env) (unitCr rollbackCommand : String) (myBag : UnitBag)
    (loc : LocalState) (appBag : AppBag) (firstUnit : KUnit)
    (v : OriginalVersions)
    (hhd : env.units.head? = some firstUnit)
    (hfst : env.thisUnitNumber = firstUnit.number)
    (hcr : unitCr = env.appControllerRevision)
    (hlen : 1 < env.units.length)
    (hstarted : refreshStartedAlready env myBag appBag = false)
    (hdb : fromAppDatabag env.charmVersionParses appBag = .ok v) :
    startRefresh env true unitCr rollbackCommand myBag loc appBag
      = (if (decide (v.charm = env.installedCharmVersion)
            && decide (env.installedContainer = some v.workload_container))
            = true then
          .ok { myBag := { myBag with
                  refresh_started_if_app_controller_revision_hash_in :=
                    some (appendIfMissing
                      (myBag.refresh_started_if_app_controller_revision_hash_in.getD [])
                      unitCr) },
                localState := { loc with kubernetes_refresh_started := true },
                refreshStarted := true,
                msgs := forceFailMsgs (forceRefreshStartValidation env.event
                    firstUnit.number env.thisUnitNumber true) ++
                  (if (forceParamsOf (forceRefreshStartValidation env.event
                      firstUnit.number env.thisUnitNumber true)).isSome then
                    [.fail "refresh already started"]
                  else []),
                certified := true }
        else
          .ok (startRefreshContainerStage env unitCr rollbackCommand myBag loc
            v
            (forceParamsOf (forceRefreshStartValidation env.event
              firstUnit.number env.thisUnitNumber true))
            (forceFailMsgs (forceRefreshStartValidation env.event
              firstUnit.number env.thisUnitNumber true)))) := by
  unfold startRefresh
  rw [hhd]
  simp only [hfst, hcr, Bool.true_eq_false, if_false, eq_self_iff_true,
    if_true]
  rw [if_neg (Nat.not_le.mpr hlen)]
  rw [hdb, hstarted]
  simp only [Bool.not_false, Bool.true_and, Bool.false_or]
  split <;> rename_i hcond <;> simp_all

/-- C3: when this unit's installed charm version equals the snapshot's
charm version and its installed workload container digest equals the
snapshot's container digest, self-certification (`_start_refresh` on the
highest unit, up to date, refresh in progress, not already started)
certifies immediately: the refresh is marked started, this unit's
controller revision is appended to its certified set
(`refresh_started_if_app_controller_revision_hash_in`), the local
`kubernetes_refresh_started` flag is set — and neither the container-pin
check, nor the `is_compatible` predicate, nor any pre-refresh check
callback is invoked. -/
theorem refresh_C3 :
    ∀ (env : Env) (unitCr rollbackCommand : String) (myBag : UnitBag)
      (loc : LocalState) (appBag : AppBag) (firstUnit : KUnit)
      (v : OriginalVersions),
      env.units.head? = some firstUnit →
      env.thisUnitNumber = firstUnit.number →
      unitCr = env.appControllerRevision →
      1 < env.units.length →
      refreshStartedAlready env myBag appBag = false →
      fromAppDatabag env.charmVersionParses appBag = .ok v →
      v.charm = env.installedCharmVersion →
      env.installedContainer = some v.workload_container →
      ∃ r, startRefresh env true unitCr rollbackCommand myBag loc appBag
          = .ok r
        ∧ r.refreshStarted = true ∧ r.certified = true
        ∧ r.myBag.refresh_started_if_app_controller_revision_hash_in
            = some (appendIfMissing
              (myBag.refresh_started_if_app_controller_revision_hash_in.getD [])
              unitCr)
        ∧ r.localState.kubernetes_refresh_started = true
        ∧ r.ranContainerCheck = false ∧ r.ranCompatPredicate = false
        ∧ r.ranPreRefreshChecks = false := by
  intro env unitCr rbc myBag loc appBag firstUnit v hhd hfst hcr hlen
    hstarted hdb hcharm hcont
  rw [startRefresh_reduces env unitCr rbc myBag loc appBag firstUnit v hhd
    hfst hcr hlen hstarted hdb]
  rw [if_pos (by simp [hcharm, hcont])]
  exact ⟨_, rfl, rfl, rfl, rfl, rfl, rfl, rfl, rfl⟩

/-- C3 witness: the theorem applied at a concrete input — installed charm
`14/1.0.0` and container `sha256:orig` equal the snapshot exactly, and the
evaluation certifies with the check instrumentation untouched. -/
theorem refresh_C3_witness :
    ∃ r, startRefresh
        { envThree .other false (fun _ => Option.none) with
          units := [⟨2, "B", "p2"⟩, ⟨1, "A", "p1"⟩],
          installedCharmVersion := "14/1.0.0",
          installedContainer := some "sha256:orig" }
        true "B" "rollback-command" {} {}
        { originals := some originalsFixture }
        = .ok r
      ∧ r.refreshStarted = true ∧ r.certified = true
      ∧ r.myBag.refresh_started_if_app_controller_revision_hash_in
          = some (appendIfMissing
            (({} : UnitBag).refresh_started_if_app_controller_revision_hash_in.getD [])
            "B")
      ∧ r.localState.kubernetes_refresh_started = true
      ∧ r.ranContainerCheck = false ∧ r.ranCompatPredicate = false
      ∧ r.ranPreRefreshChecks = false :=
  refresh_C3
    { envThree .other false (fun _ => Option.none) with
      units := [⟨2, "B", "p2"⟩, ⟨1, "A", "p1"⟩],
      installedCharmVersion := "14/1.0.0",
      installedContainer := some "sha256:orig" }
    "B" "rollback-command" {} {} { originals := some originalsFixture }
    ⟨2, "B", "p2"⟩ originalsFixture rfl rfl rfl (by decide) rfl rfl rfl rfl

/-- Helper: the container stage with the container check active and failing
stops before the compatibility and pre-refresh stages. -/
theorem containerStage_fail
    (env : Env) (unitCr rollbackCommand : String) (myBag : UnitBag)
    (loc : LocalState) (v : OriginalVersions) (force : Option ActionParams)
    (msgs0 : List ActionMsg)
    (hactive : (match force with
      | some p => p.check_workload_container
      | Option.none => true) = true)
    (hfail : env.installedContainer ≠ some env.pinnedContainer) :
    startRefreshContainerStage env unitCr rollbackCommand myBag loc v force
        msgs0
      = { myBag := myBag, localState := loc, refreshStarted := false,
          unitStatusHigherPriority := some (.blocked
            "`juju refresh` was run with missing/incorrect OCI resource. Rollback with instructions in docs or see `juju debug-log`"),
          msgs := msgs0 ++ (if force.isSome then
            [.fail ("Refresh is to " ++ env.workloadName
              ++ " container version that has not been validated to work with the charm revision. Rollback by running `"
              ++ rollbackCommand ++ "`")]
          else []),
          ranContainerCheck := true } := by
  cases force with
  | none =>
    unfold startRefreshContainerStage
    simp only [Bool.false_eq_true, if_false]
    rw [if_neg hfail]
  | some p =>
    dsimp only at hactive
    unfold startRefreshContainerStage
    simp only [hactive, Bool.not_true, Bool.false_eq_true, if_false]
    rw [if_neg hfail]

/-- Helper: the container stage with the check skipped or passing continues
into the compatibility stage; an active and failing compatibility check
stops before the pre-refresh stage. -/
theorem compatStage_fail
    (env : Env) (unitCr rollbackCommand : String) (myBag : UnitBag)
    (loc : LocalState) (v : OriginalVersions) (force : Option ActionParams)
    (msgs : List ActionMsg)
    (ranContainer : Bool)
    (hcompatActive : (match force with
      | some p => p.check_compatibility
      | Option.none => true) = true)
    (hfail : (compatibilityCheck env v).1 = false) :
    startRefreshAfterContainer env unitCr rollbackCommand myBag loc v force
        msgs ranContainer
      = { myBag := myBag, localState := loc, refreshStarted := false,
          unitStatusHigherPriority := some (.blocked
            "Refresh incompatible. Rollback with instructions in Charmhub docs or see `juju debug-log`"),
          msgs := msgs ++ (if force.isSome then
            [.fail ("Refresh incompatible. Rollback by running `"
              ++ rollbackCommand ++ "`")]
          else []),
          ranContainerCheck := ranContainer,
          ranCompatPredicate := (compatibilityCheck env v).2 } := by
  rcases hcc : compatibilityCheck env v with ⟨cf, cp⟩
  rw [hcc] at hfail
  simp only at hfail
  subst hfail
  cases force with
  | none =>
    unfold startRefreshAfterContainer
    simp only [hcc, Bool.false_eq_true, if_false]
  | some p =>
    dsimp only at hcompatActive
    unfold startRefreshAfterContainer
    simp only [hcompatActive, hcc, Bool.not_true, Bool.false_eq_true,
      if_false]

/-- Helper: the container stage with the container check skipped by the
force-refresh-start action proceeds directly to the compatibility stage. -/
theorem containerStage_skip
    (env : Env) (unitCr rollbackCommand : String) (myBag : UnitBag)
    (loc : LocalState) (v : OriginalVersions) (force : Option ActionParams)
    (msgs0 : List ActionMsg)
    (hskip : (match force with
      | some p => !p.check_workload_container
      | Option.none => false) = true) :
    startRefreshContainerStage env unitCr rollbackCommand myBag loc v force
        msgs0
      = startRefreshAfterContainer env unitCr rollbackCommand myBag loc v
          force
          (msgs0 ++ [.log ("Skipping check that refresh is to "
            ++ env.workloadName
            ++ " container version that has been validated to work with the charm revision")])
          false := by
  unfold startRefreshContainerStage
  simp only [hskip, if_true]

/-- Helper: the container stage with the container check active and passing
proceeds to the compatibility stage with the check recorded as run. -/
theorem containerStage_pass
    (env : Env) (unitCr rollbackCommand : String) (myBag : UnitBag)
    (loc : LocalState) (v : OriginalVersions) (force : Option ActionParams)
    (msgs0 : List ActionMsg)
    (hskip : (match force with
      | some p => !p.check_workload_container
      | Option.none => false) = false)
    (hpass : env.installedContainer = some env.pinnedContainer) :
    startRefreshContainerStage env unitCr rollbackCommand myBag loc v force
        msgs0
      = startRefreshAfterContainer env unitCr rollbackCommand myBag loc v
          force
          (msgs0 ++ (if force.isSome then
            [.log ("Checked that refresh is to " ++ env.workloadName
              ++ "container version that has been validated to work with the charm revision")]
          else []))
          true := by
  unfold startRefreshContainerStage
  simp only [hskip, Bool.false_eq_true, if_false]
  rw [if_pos hpass]

/-- C4: when the rollback short-circuit does not apply, self-certification
runs the automatic checks in the fixed order container-pin, compatibility,
pre-refresh, each non-bypassed check stopping evaluation at its first
failure so that later checks are not invoked: an active failing container
check blocks without evaluating the compatibility condition or the
pre-refresh callbacks; with the container check skipped or passing, an
active failing compatibility check blocks without running the pre-refresh
callbacks; and the compatibility condition is false — with the
`is_compatible` predicate not even invoked — whenever the snapshot records
that the originally installed container did not match the pinned one,
regardless of what `is_compatible` would return. -/
theorem refresh_C4 :
    (∀ (env : Env) (unitCr rollbackCommand : String) (myBag : UnitBag)
        (loc : LocalState) (appBag : AppBag) (firstUnit : KUnit)
        (v : OriginalVersions),
      env.units.head? = some firstUnit →
      env.thisUnitNumber = firstUnit.number →
      unitCr = env.appControllerRevision →
      1 < env.units.length →
      refreshStartedAlready env myBag appBag = false →
      fromAppDatabag env.charmVersionParses appBag = .ok v →
      ¬(v.charm = env.installedCharmVersion
          ∧ env.installedContainer = some v.workload_container) →
      (((match forceParamsOf (forceRefreshStartValidation env.event
            firstUnit.number env.thisUnitNumber true) with
          | some p => p.check_workload_container
          | Option.none => true) = true
        ∧ env.installedContainer ≠ some env.pinnedContainer) →
        ∃ r, startRefresh env true unitCr rollbackCommand myBag loc appBag
            = .ok r
          ∧ r.ranContainerCheck = true ∧ r.ranCompatPredicate = false
          ∧ r.ranPreRefreshChecks = false ∧ r.refreshStarted = false
          ∧ r.certified = false
          ∧ r.unitStatusHigherPriority = some (.blocked
              "`juju refresh` was run with missing/incorrect OCI resource. Rollback with instructions in docs or see `juju debug-log`"))
      ∧ ((((match forceParamsOf (forceRefreshStartValidation env.event
              firstUnit.number env.thisUnitNumber true) with
            | some p => !p.check_workload_container
            | Option.none => false) = true
          ∨ env.installedContainer = some env.pinnedContainer)
        ∧ (match forceParamsOf (forceRefreshStartValidation env.event
              firstUnit.number env.thisUnitNumber true) with
            | some p => p.check_compatibility
            | Option.none => true) = true
        ∧ (compatibilityCheck env v).1 = false) →
        ∃ r, startRefresh env true unitCr rollbackCommand myBag loc appBag
            = .ok r
          ∧ r.ranPreRefreshChecks = false ∧ r.refreshStarted = false
          ∧ r.certified = false
          ∧ r.ranCompatPredicate = (compatibilityCheck env v).2
          ∧ r.unitStatusHigherPriority = some (.blocked
              "Refresh incompatible. Rollback with instructions in Charmhub docs or see `juju debug-log`")))
    ∧ (∀ (env : Env) (v : OriginalVersions),
        v.installed_workload_container_matched_pinned_container = false →
        compatibilityCheck env v = (false, false)) := by
  constructor
  · intro env unitCr rbc myBag loc appBag firstUnit v hhd hfst hcr hlen
      hstarted hdb hnorb
    have hcond : (decide (v.charm = env.installedCharmVersion)
        && decide (env.installedContainer = some v.workload_container))
        = false := by
      by_cases h1 : v.charm = env.installedCharmVersion
      · by_cases h2 : env.installedContainer = some v.workload_container
        · exact absurd ⟨h1, h2⟩ hnorb
        · simp [h2]
      · simp [h1]
    have hred := startRefresh_reduces env unitCr rbc myBag loc appBag
      firstUnit v hhd hfst hcr hlen hstarted hdb
    rw [hcond] at hred
    simp only [Bool.false_eq_true, if_false] at hred
    constructor
    · rintro ⟨hactive, hfail⟩
      rw [hred, containerStage_fail env unitCr rbc myBag loc v _ _ hactive
        hfail]
      exact ⟨_, rfl, rfl, rfl, rfl, rfl, rfl, rfl⟩
    · rintro ⟨hdisj, hcompatActive, hcfail⟩
      by_cases hskip : (match forceParamsOf (forceRefreshStartValidation
          env.event firstUnit.number env.thisUnitNumber true) with
        | some p => !p.check_workload_container
        | Option.none => false) = true
      · rw [hred, containerStage_skip env unitCr rbc myBag loc v _ _ hskip,
          compatStage_fail env unitCr rbc myBag loc v _ _ false
            hcompatActive hcfail]
        exact ⟨_, rfl, rfl, rfl, rfl, rfl, rfl⟩
      · have hpass : env.installedContainer = some env.pinnedContainer := by
          rcases hdisj with h | h
          · exact absurd h hskip
          · exact h
        rw [hred, containerStage_pass env unitCr rbc myBag loc v _ _
            (Bool.not_eq_true _ ▸ eq_false_of_ne_true hskip) hpass,
          compatStage_fail env unitCr rbc myBag loc v _ _ true
            hcompatActive hcfail]
        exact ⟨_, rfl, rfl, rfl, rfl, rfl, rfl⟩
  · intro env v hm
    unfold compatibilityCheck
    rw [if_neg]
    rintro ⟨h1, _⟩
    rw [hm] at h1
    cases h1

/-- C4 witness: the theorem applied at a concrete input — no force action,
installed container `sha256:other` differs from the pinned `sha256:pin`,
the snapshot differs from the installed versions: the container check runs
and fails, the compatibility predicate and pre-refresh callbacks are not
invoked, and certification does not happen. -/
theorem refresh_C4_witness :
    ∃ r, startRefresh
        { envThree .other false (fun _ => Option.none) with
          units := [⟨2, "B", "p2"⟩, ⟨1, "A", "p1"⟩],
          installedContainer := some "sha256:other" }
        true "B" "rollback-command" {} {}
        { originals := some originalsFixture }
        = .ok r
      ∧ r.ranContainerCheck = true ∧ r.ranCompatPredicate = false
      ∧ r.ranPreRefreshChecks = false ∧ r.refreshStarted = false
      ∧ r.certified = false
      ∧ r.unitStatusHigherPriority = some (.blocked
          "`juju refresh` was run with missing/incorrect OCI resource. Rollback with instructions in docs or see `juju debug-log`") :=
  (refresh_C4.1
    { envThree .other false (fun _ => Option.none) with
      units := [⟨2, "B", "p2"⟩, ⟨1, "A", "p1"⟩],
      installedContainer := some "sha256:other" }
    "B" "rollback-command" {} {} { originals := some originalsFixture }
    ⟨2, "B", "p2"⟩ originalsFixture rfl rfl rfl (by decide) rfl rfl
    (by decide)).1 ⟨rfl, by decide⟩

/-- Helper: `workload_allowed_to_start` does not read the
`next_unit_allowed_to_refresh_if_app_controller_revision_hash_equals` key,
so setting it leaves the property unchanged
(frame condition for the setter). -/
theorem bagHashes_next_irrelevant (env : Env) (myBag : UnitBag)
    (x : Option String) (u : KUnit) :
    bagRefreshStartedHashes env
      { myBag with
        next_unit_allowed_to_refresh_if_app_controller_revision_hash_equals := x }
      u
    = bagRefreshStartedHashes env myBag u := by
  unfold bagRefreshStartedHashes relationGet
  by_cases h : u.number = env.thisUnitNumber
  · rw [if_pos h, if_pos h]
  · rw [if_neg h, if_neg h]

/-- C10: setting `next_unit_allowed_to_refresh` to a value other than
`True` raises `ValueError`; setting it to `True` while
`workload_allowed_to_start` is `False` raises an exception and leaves the
unit databag unchanged; a successful set records this unit's own current
controller revision in its databag — after which the getter returns `True`
— and triggers one `_set_partition_and_app_status(handle_action=False)`
call; a repeated set with unchanged state writes nothing further (no
databag write, no partition/status call); and
`workload_allowed_to_start` is unaffected by the recorded value. -/
theorem refresh_C10 :
    (∀ (env : Env) (inProgress refreshStarted : Bool)
        (pauseAfter : PauseAfter) (unitsNotTearingDown : List KUnit)
        (unitCr : String) (myBag : UnitBag) (appBag : AppBag)
        (partition : Nat),
      nextUnitAllowedToRefreshSet env inProgress refreshStarted pauseAfter
          unitsNotTearingDown unitCr false myBag appBag partition
        = .ok ⟨some (.valueError "`next_unit_allowed_to_refresh` can only be set to `True`"),
            myBag, false, Option.none⟩)
    ∧ (∀ (env : Env) (inProgress refreshStarted : Bool)
        (pauseAfter : PauseAfter) (unitsNotTearingDown : List KUnit)
        (unitCr : String) (myBag : UnitBag) (appBag : AppBag)
        (partition : Nat),
      workloadAllowedToStart env inProgress unitCr myBag appBag = .ok false →
      nextUnitAllowedToRefreshSet env inProgress refreshStarted pauseAfter
          unitsNotTearingDown unitCr true myBag appBag partition
        = .ok ⟨some (.exception "`next_unit_allowed_to_refresh` cannot be set to `True` when `workload_allowed_to_start` is `False`"),
            myBag, false, Option.none⟩)
    ∧ (∀ (env : Env) (inProgress refreshStarted : Bool)
        (pauseAfter : PauseAfter) (unitsNotTearingDown : List KUnit)
        (unitCr : String) (myBag : UnitBag) (appBag : AppBag)
        (partition : Nat) (pr : PartitionResult),
      workloadAllowedToStart env inProgress unitCr myBag appBag = .ok true →
      myBag.next_unit_allowed_to_refresh_if_app_controller_revision_hash_equals
        ≠ some unitCr →
      setPartitionAndAppStatus env false inProgress refreshStarted pauseAfter
          unitsNotTearingDown
          { myBag with
            next_unit_allowed_to_refresh_if_app_controller_revision_hash_equals :=
              some unitCr }
          partition
        = .ok pr →
      nextUnitAllowedToRefreshSet env inProgress refreshStarted pauseAfter
          unitsNotTearingDown unitCr true myBag appBag partition
        = .ok ⟨Option.none,
            { myBag with
              next_unit_allowed_to_refresh_if_app_controller_revision_hash_equals :=
                some unitCr },
            true, some pr⟩
      ∧ nextUnitAllowedToRefreshGet
          { myBag with
            next_unit_allowed_to_refresh_if_app_controller_revision_hash_equals :=
              some unitCr }
          unitCr = true)
    ∧ (∀ (env : Env) (inProgress refreshStarted : Bool)
        (pauseAfter : PauseAfter) (unitsNotTearingDown : List KUnit)
        (unitCr : String) (myBag : UnitBag) (appBag : AppBag)
        (partition : Nat),
      workloadAllowedToStart env inProgress unitCr myBag appBag = .ok true →
      myBag.next_unit_allowed_to_refresh_if_app_controller_revision_hash_equals
        = some unitCr →
      nextUnitAllowedToRefreshSet env inProgress refreshStarted pauseAfter
          unitsNotTearingDown unitCr true myBag appBag partition
        = .ok ⟨Option.none, myBag, false, Option.none⟩)
    ∧ (∀ (env : Env) (inProgress : Bool) (unitCr : String) (myBag : UnitBag)
        (appBag : AppBag) (x : Option String),
      workloadAllowedToStart env inProgress unitCr
          { myBag with
            next_unit_allowed_to_refresh_if_app_controller_revision_hash_equals := x }
          appBag
        = workloadAllowedToStart env inProgress unitCr myBag appBag) := by
  refine ⟨?_, ?_, ?_, ?_, ?_⟩
  · intro env inP rs pa ntd unitCr myBag appBag p
    rfl
  · intro env inP rs pa ntd unitCr myBag appBag p hw
    unfold nextUnitAllowedToRefreshSet
    rw [hw]
    rfl
  · intro env inP rs pa ntd unitCr myBag appBag p pr hw hne hpr
    constructor
    · unfold nextUnitAllowedToRefreshSet
      rw [hw]
      rw [if_neg hne]
      dsimp only
      rw [hpr]
      rfl
    · unfold nextUnitAllowedToRefreshGet
      simp
  · intro env inP rs pa ntd unitCr myBag appBag p hw hm
    unfold nextUnitAllowedToRefreshSet
    rw [hw]
    rw [if_pos hm]
    rfl
  · intro env inP unitCr myBag appBag x
    unfold workloadAllowedToStart
    simp only [bagHashes_next_irrelevant]

/-- C10 witness: the theorem applied at a concrete input — a repeated set
with the controller revision already recorded returns without raising and
performs no write and no partition/status call. -/
theorem refresh_C10_witness :
    nextUnitAllowedToRefreshSet
      { envThree .other true (fun _ => Option.none) with
        units := [⟨2, "B", "p2"⟩, ⟨1, "A", "p1"⟩] }
      true true PauseAfter.all [⟨2, "B", "p2"⟩, ⟨1, "A", "p1"⟩] "B" true
      { refresh_started_if_app_controller_revision_hash_in := some ["B"],
        next_unit_allowed_to_refresh_if_app_controller_revision_hash_equals :=
          some "B" }
      { originals := some originalsFixture } 2
    = .ok ⟨Option.none,
        { refresh_started_if_app_controller_revision_hash_in := some ["B"],
          next_unit_allowed_to_refresh_if_app_controller_revision_hash_equals :=
            some "B" },
        false, Option.none⟩ :=
  refresh_C10.2.2.2.1
    { envThree .other true (fun _ => Option.none) with
      units := [⟨2, "B", "p2"⟩, ⟨1, "A", "p1"⟩] }
    true true PauseAfter.all [⟨2, "B", "p2"⟩, ⟨1, "A", "p1"⟩] "B"
    { refresh_started_if_app_controller_revision_hash_in := some ["B"],
      next_unit_allowed_to_refresh_if_app_controller_revision_hash_equals :=
        some "B" }
    { originals := some originalsFixture } 2 (by rfl) rfl

end CharmRefresh


namespace CharmRefresh

/-- Helper: appending an element already present is a no-op. -/
theorem appendIfMissing_of_mem {l : List String} {x : String} (h : x ∈ l) :
    appendIfMissing l x = l := by
  simp [appendIfMissing, h]

/-- Helper: the appended element is a member of the result. -/
theorem mem_appendIfMissing (l : List String) (x : String) :
    x ∈ appendIfMissing l x := by
  unfold appendIfMissing
  split
  · assumption
  · simp

/-- Helper: membership is preserved by `appendIfMissing`. -/
theorem mem_appendIfMissing_of_mem {l : List String} {y : String}
    (x : String) (h : y ∈ l) : y ∈ appendIfMissing l x := by
  unfold appendIfMissing
  split
  · assumption
  · simp [h]

/-- Helper: folding `appendIfMissing` over elements already present is a
no-op. -/
theorem foldl_appendIfMissing_id {u : List String} {acc : List String}
    (h : ∀ x ∈ u, x ∈ acc) : u.foldl appendIfMissing acc = acc := by
  induction u generalizing acc with
  | nil => rfl
  | cons x xs ih =>
    rw [List.foldl_cons, appendIfMissing_of_mem (h x (by simp))]
    exact ih fun y hy => h y (by simp [hy])

/-- Helper: folding `appendIfMissing` preserves membership of the
accumulator. -/
theorem mem_foldl_appendIfMissing_left {u acc : List String} {y : String}
    (h : y ∈ acc) : y ∈ u.foldl appendIfMissing acc := by
  induction u generalizing acc with
  | nil => exact h
  | cons x xs ih =>
    rw [List.foldl_cons]
    exact ih (mem_appendIfMissing_of_mem x h)

/-- Helper: members of a fold of `appendIfMissing` come from the
accumulator or the folded list. -/
theorem mem_of_mem_foldl_appendIfMissing {u acc : List String} {y : String}
    (h : y ∈ u.foldl appendIfMissing acc) : y ∈ acc ∨ y ∈ u := by
  induction u generalizing acc with
  | nil => exact Or.inl h
  | cons x xs ih =>
    rw [List.foldl_cons] at h
    rcases ih h with h1 | h1
    · unfold appendIfMissing at h1
      split at h1
      · exact Or.inl h1
      · rcases List.mem_append.mp h1 with h2 | h2
        · exact Or.inl h2
        · simp at h2
          simp [h2]
    · simp [h1]

/-- Helper: every element of the folded list ends up in the fold. -/
theorem mem_foldl_appendIfMissing_right {u acc : List String} {y : String}
    (h : y ∈ u) : y ∈ u.foldl appendIfMissing acc := by
  induction u generalizing acc with
  | nil => cases h
  | cons x xs ih =>
    rw [List.foldl_cons]
    rcases List.mem_cons.mp h with rfl | h1
    · exact mem_foldl_appendIfMissing_left (mem_appendIfMissing acc y)
    · exact ih h1

/-- Helper: rewriting a `UnitBag` field to its current value is the
identity (structure eta). -/
theorem unitBag_set_pause_self (b : UnitBag) (x : Option String)
    (h : b.pause_after_unit_refresh_config = x) :
    ({ b with pause_after_unit_refresh_config := x } : UnitBag) = b := by
  rw [← h]

/-- Helper: same for the certified-hash list field. -/
theorem unitBag_set_hashes_self (b : UnitBag) (x : Option (List String))
    (h : b.refresh_started_if_app_controller_revision_hash_in = x) :
    ({ b with refresh_started_if_app_controller_revision_hash_in := x }
      : UnitBag) = b := by
  rw [← h]

/-- Helper: same for the tearing-down pod-uid list field. -/
theorem unitBag_set_pod_self (b : UnitBag) (x : Option (List String))
    (h : b.pod_uids_of_units_that_are_tearing_down = x) :
    ({ b with pod_uids_of_units_that_are_tearing_down := x } : UnitBag)
      = b := by
  rw [← h]

/-- Helper: same for the stop-event marker field. -/
theorem unitBag_set_stop_self (b : UnitBag) (x : Option String)
    (h : b.unused_controller_revision_during_last_stop_event = x) :
    ({ b with unused_controller_revision_during_last_stop_event := x }
      : UnitBag) = b := by
  rw [← h]

/-- Helper: rewriting a `LocalState` field to its current value is the
identity. -/
theorem localState_set_json_self (l : LocalState) (x : Option (List String))
    (h : l.kubernetes_pod_ids_of_units_that_are_tearing_down = x) :
    ({ l with kubernetes_pod_ids_of_units_that_are_tearing_down := x }
      : LocalState) = l := by
  rw [← h]

/-- Helper: same for the had-opportunity flag. -/
theorem localState_set_had_self (l : LocalState) (x : Bool)
    (h : l.kubernetes_had_opportunity_to_raise_partition_after_pod_restart = x) :
    ({ l with
      kubernetes_had_opportunity_to_raise_partition_after_pod_restart := x }
      : LocalState) = l := by
  rw [← h]

/-- Helper: the pause value read through the relation depends on this
unit's databag only through its `pause_after_unit_refresh_config` field. -/
theorem relationGet_pause_congr (env : Env) {b1 b2 : UnitBag}
    (h : b1.pause_after_unit_refresh_config
      = b2.pause_after_unit_refresh_config) :
    ∀ u : KUnit,
      ((relationGet env b1 u).bind (·.pause_after_unit_refresh_config))
      = ((relationGet env b2 u).bind (·.pause_after_unit_refresh_config)) := by
  intro u
  unfold relationGet
  split <;> simp [h]

/-- Helper: `pauseValuesOf` depends on this unit's databag only through its
pause field. -/
theorem pauseValuesOf_congr (env : Env) {b1 b2 : UnitBag}
    (h : b1.pause_after_unit_refresh_config
      = b2.pause_after_unit_refresh_config)
    (ntd : List KUnit) :
    pauseValuesOf env b1 ntd = pauseValuesOf env b2 ntd := by
  unfold pauseValuesOf
  simp only [relationGet_pause_congr env h]

/-- Helper: `computePauseAfter` depends on this unit's databag only
through its pause field. -/
theorem computePauseAfter_congr (env : Env) {b1 b2 : UnitBag}
    (h : b1.pause_after_unit_refresh_config
      = b2.pause_after_unit_refresh_config)
    (ntd : List KUnit) :
    computePauseAfter env b1 ntd = computePauseAfter env b2 ntd := by
  unfold computePauseAfter
  rw [pauseValuesOf_congr env h ntd]

/-- Helper: the tearing-down uids read through the relation depend on this
unit's databag only through its pod-uid field. -/
theorem bagTearingDownUids_congr (env : Env) {b1 b2 : UnitBag}
    (h : b1.pod_uids_of_units_that_are_tearing_down
      = b2.pod_uids_of_units_that_are_tearing_down) :
    ∀ u : KUnit, bagTearingDownUids env b1 u = bagTearingDownUids env b2 u := by
  intro u
  unfold bagTearingDownUids relationGet
  by_cases hn : u.number = env.thisUnitNumber
  · rw [if_pos hn, if_pos hn]
    simp [h]
  · rw [if_neg hn, if_neg hn]

/-- Helper: `tearingDownUidsAll` depends on this unit's databag only
through its pod-uid field. -/
theorem tearingDownUidsAll_congr (env : Env) {b1 b2 : UnitBag}
    (h : b1.pod_uids_of_units_that_are_tearing_down
      = b2.pod_uids_of_units_that_are_tearing_down) :
    tearingDownUidsAll env b1 = tearingDownUidsAll env b2 := by
  unfold tearingDownUidsAll
  simp only [bagTearingDownUids_congr env h]

/-- Helper: `unitsNotTearingDownOf` depends on this unit's databag only
through its pod-uid field. -/
theorem unitsNotTearingDownOf_congr (env : Env) {b1 b2 : UnitBag}
    (h : b1.pod_uids_of_units_that_are_tearing_down
      = b2.pod_uids_of_units_that_are_tearing_down) :
    unitsNotTearingDownOf env b1 = unitsNotTearingDownOf env b2 := by
  unfold unitsNotTearingDownOf
  rw [tearingDownUidsAll_congr env h]

/-- Helper: `fromAppDatabag` reads the app databag only through the
snapshot keys. -/
theorem fromAppDatabag_congr (parses : String → Bool) {a1 a2 : AppBag}
    (h : a1.originals = a2.originals) :
    fromAppDatabag parses a1 = fromAppDatabag parses a2 := by
  unfold fromAppDatabag
  rw [h]

/-- Helper: membership in the leader hash merge is membership in the app
databag copy or in some unit databag entry. -/
theorem mem_merge_hashes (env : Env) (b : UnitBag) (y : String) :
    ∀ (l : List KUnit) (init : List String),
      (y ∈ l.foldl
        (fun acc u => (bagRefreshStartedHashes env b u).foldl appendIfMissing acc)
        init)
      ↔ y ∈ init ∨ ∃ u ∈ l, y ∈ bagRefreshStartedHashes env b u := by
  intro l
  induction l with
  | nil => simp
  | cons x xs ih =>
    intro init
    rw [List.foldl_cons, ih]
    constructor
    · rintro (h1 | h1)
      · rcases mem_of_mem_foldl_appendIfMissing h1 with h2 | h2
        · exact Or.inl h2
        · exact Or.inr ⟨x, by simp, h2⟩
      · obtain ⟨u, hu, hy⟩ := h1
        exact Or.inr ⟨u, by simp [hu], hy⟩
    · rintro (h1 | h1)
      · exact Or.inl (mem_foldl_appendIfMissing_left h1)
      · obtain ⟨u, hu, hy⟩ := h1
        rcases List.mem_cons.mp hu with rfl | hu1
        · exact Or.inl (mem_foldl_appendIfMissing_right hy)
        · exact Or.inr ⟨u, hu1, hy⟩

/-- Helper: the leader merging this unit databag view into the app databag
does not change whether the refresh counts as already started. -/
theorem refreshStartedAlready_merge (env : Env) (b : UnitBag)
    (ab : AppBag) :
    refreshStartedAlready env b (mergeRefreshStartedToApp env b ab)
      = refreshStartedAlready env b ab := by
  unfold refreshStartedAlready mergeRefreshStartedToApp
  by_cases hany : (env.units.any (fun u =>
      decide (env.appControllerRevision ∈ bagRefreshStartedHashes env b u)))
      = true
  · simp [hany]
  · have hany2 : (env.units.any (fun u =>
        decide (env.appControllerRevision ∈ bagRefreshStartedHashes env b u)))
        = false := eq_false_of_ne_true hany
    simp only [hany2, Bool.false_or]
    have hnone : ¬ ∃ u ∈ env.units,
        env.appControllerRevision ∈ bagRefreshStartedHashes env b u := by
      simp only [List.any_eq_true, decide_eq_true_eq] at hany
      exact hany
    have hmm := mem_merge_hashes env b env.appControllerRevision env.units
      (ab.refresh_started_if_app_controller_revision_hash_in.getD [])
    by_cases hm : env.appControllerRevision
        ∈ ab.refresh_started_if_app_controller_revision_hash_in.getD []
    · simp [hm, hmm.mpr (Or.inl hm)]
    · have hno : env.appControllerRevision
          ∉ env.units.foldl
            (fun acc u =>
              (bagRefreshStartedHashes env b u).foldl appendIfMissing acc)
            (ab.refresh_started_if_app_controller_revision_hash_in.getD []) :=
        fun hx => (hmm.mp hx).elim hm hnone
      simp [hm, hno]

/-- Helper: `_start_refresh` reads the app databag only through
`refreshStartedAlready` and the snapshot keys. -/
theorem startRefresh_appBag_congr (env : Env) (inProgress : Bool)
    (unitCr rbc : String) (b : UnitBag) (l : LocalState) {a1 a2 : AppBag}
    (hstart : refreshStartedAlready env b a1 = refreshStartedAlready env b a2)
    (horig : a1.originals = a2.originals) :
    startRefresh env inProgress unitCr rbc b l a1
      = startRefresh env inProgress unitCr rbc b l a2 := by
  unfold startRefresh
  rw [hstart, fromAppDatabag_congr env.charmVersionParses horig]

/-- Helper: when the refresh already counts as started, `_start_refresh`
(on the highest, up-to-date unit, refresh in progress) returns without
writing, reporting the refresh as started and no unit status. -/
theorem startRefresh_already
    (env : Env) (unitCr rbc : String) (b : UnitBag) (l : LocalState)
    (a : AppBag) (firstUnit : KUnit) (v : OriginalVersions)
    (hhd : env.units.head? = some firstUnit)
    (hfst : env.thisUnitNumber = firstUnit.number)
    (hcr : unitCr = env.appControllerRevision)
    (hlen : 1 < env.units.length)
    (hstarted : refreshStartedAlready env b a = true)
    (hdb : fromAppDatabag env.charmVersionParses a = .ok v) :
    startRefresh env true unitCr rbc b l a
      = .ok { myBag := b, localState := l, refreshStarted := true,
              msgs := forceFailMsgs (forceRefreshStartValidation env.event
                  firstUnit.number env.thisUnitNumber true) ++
                (if (forceParamsOf (forceRefreshStartValidation env.event
                    firstUnit.number env.thisUnitNumber true)).isSome then
                  [.fail "refresh already started"]
                else []),
              certified := false } := by
  unfold startRefresh
  rw [hhd]
  simp only [hfst, hcr, Bool.true_eq_false, if_false, eq_self_iff_true,
    if_true]
  rw [if_neg (Nat.not_le.mpr hlen)]
  rw [hdb, hstarted]
  simp

/-- Helper: the refresh counts as already started as soon as this unit's
own databag entry carries the app controller revision. -/
theorem refreshStartedAlready_of_mem (env : Env) (b : UnitBag) (a : AppBag)
    (thisUnit : KUnit)
    (hmemu : thisUnit ∈ env.units)
    (hnum : thisUnit.number = env.thisUnitNumber)
    (hmem : env.appControllerRevision
      ∈ b.refresh_started_if_app_controller_revision_hash_in.getD []) :
    refreshStartedAlready env b a = true := by
  have hin : env.appControllerRevision
      ∈ bagRefreshStartedHashes env b thisUnit := by
    unfold bagRefreshStartedHashes relationGet
    rw [if_pos hnum]
    exact hmem
  unfold refreshStartedAlready
  have : env.units.any (fun u =>
      decide (env.appControllerRevision ∈ bagRefreshStartedHashes env b u))
      = true := by
    rw [List.any_eq_true]
    exact ⟨thisUnit, hmemu, by simpa using hin⟩
  simp [this]

/-- Helper: the pre-refresh stage either leaves the databag and local
state unchanged without certifying, or certifies (appending this unit
controller revision, setting the local flag, no unit status). -/
theorem afterCompat_dichotomy (env : Env) (u rbc : String) (b : UnitBag)
    (l : LocalState) (force : Option ActionParams) (m : List ActionMsg)
    (rc rcp : Bool) :
    ((startRefreshAfterCompat env u rbc b l force m rc rcp).myBag = b
      ∧ (startRefreshAfterCompat env u rbc b l force m rc rcp).localState = l
      ∧ (startRefreshAfterCompat env u rbc b l force m rc rcp).refreshStarted
          = false)
    ∨ ((startRefreshAfterCompat env u rbc b l force m rc rcp).myBag
          = certifyBag b u
      ∧ (startRefreshAfterCompat env u rbc b l force m rc rcp).localState
          = certifyLoc l
      ∧ (startRefreshAfterCompat env u rbc b l force m rc rcp).refreshStarted
          = true
      ∧ (startRefreshAfterCompat env u rbc b l force
          m rc rcp).unitStatusHigherPriority = Option.none) := by
  unfold startRefreshAfterCompat startRefreshCertify certifyBag certifyLoc
  cases force with
  | none =>
    dsimp only
    rw [if_neg (by decide : ¬ (false = true))]
    cases env.preRefreshAfterResult with
    | some msg => left; exact ⟨rfl, rfl, rfl⟩
    | none => right; exact ⟨rfl, rfl, rfl, rfl⟩
  | some p =>
    dsimp only
    split
    · right; exact ⟨rfl, rfl, rfl, rfl⟩
    · cases env.preRefreshAfterResult with
      | some msg => left; exact ⟨rfl, rfl, rfl⟩
      | none => right; exact ⟨rfl, rfl, rfl, rfl⟩

/-- Helper: the compatibility stage also either leaves state unchanged
without certifying or certifies. -/
theorem afterContainer_dichotomy (env : Env) (u rbc : String) (b : UnitBag)
    (l : LocalState) (v : OriginalVersions) (force : Option ActionParams)
    (m : List ActionMsg) (rc : Bool) :
    ((startRefreshAfterContainer env u rbc b l v force m rc).myBag = b
      ∧ (startRefreshAfterContainer env u rbc b l v force m rc).localState = l
      ∧ (startRefreshAfterContainer env u rbc b l v force m rc).refreshStarted
          = false)
    ∨ ((startRefreshAfterContainer env u rbc b l v force m rc).myBag
          = certifyBag b u
      ∧ (startRefreshAfterContainer env u rbc b l v force m rc).localState
          = certifyLoc l
      ∧ (startRefreshAfterContainer env u rbc b l v force m rc).refreshStarted
          = true
      ∧ (startRefreshAfterContainer env u rbc b l v force
          m rc).unitStatusHigherPriority = Option.none) := by
  unfold startRefreshAfterContainer
  cases force with
  | none =>
    dsimp only
    rw [if_neg (by decide : ¬ (false = true))]
    rcases hcc : compatibilityCheck env v with ⟨cf, cp⟩
    cases cf with
    | true => exact afterCompat_dichotomy env u rbc b l Option.none _ rc cp
    | false => left; exact ⟨rfl, rfl, rfl⟩
  | some p =>
    dsimp only
    split
    · exact afterCompat_dichotomy env u rbc b l (some p) _ rc false
    · rcases hcc : compatibilityCheck env v with ⟨cf, cp⟩
      cases cf with
      | true => exact afterCompat_dichotomy env u rbc b l (some p) _ rc cp
      | false => left; exact ⟨rfl, rfl, rfl⟩

/-- Helper: the container stage also either leaves state unchanged without
certifying or certifies. -/
theorem containerStage_dichotomy (env : Env) (u rbc : String) (b : UnitBag)
    (l : LocalState) (v : OriginalVersions) (force : Option ActionParams)
    (m : List ActionMsg) :
    ((startRefreshContainerStage env u rbc b l v force m).myBag = b
      ∧ (startRefreshContainerStage env u rbc b l v force m).localState = l
      ∧ (startRefreshContainerStage env u rbc b l v force m).refreshStarted
          = false)
    ∨ ((startRefreshContainerStage env u rbc b l v force m).myBag
          = certifyBag b u
      ∧ (startRefreshContainerStage env u rbc b l v force m).localState
          = certifyLoc l
      ∧ (startRefreshContainerStage env u rbc b l v force m).refreshStarted
          = true
      ∧ (startRefreshContainerStage env u rbc b l v force
          m).unitStatusHigherPriority = Option.none) := by
  unfold startRefreshContainerStage
  cases force with
  | none =>
    dsimp only
    rw [if_neg (by decide : ¬ (false = true))]
    split
    · exact afterContainer_dichotomy env u rbc b l v Option.none _ true
    · left
      exact ⟨rfl, rfl, rfl⟩
  | some p =>
    dsimp only
    split
    · exact afterContainer_dichotomy env u rbc b l v (some p) _ false
    · split
      · exact afterContainer_dichotomy env u rbc b l v (some p) _ true
      · left
        exact ⟨rfl, rfl, rfl⟩

/-- Helper: whenever `_start_refresh` returns normally, it either leaves the
unit databag and local state untouched, or performs a certification write
(rollback short-circuit or full check pass): append the app controller
revision to the hash list, set the local refresh-started flag, report the
refresh started with no unit status, with the unit controller revision
equal to the app controller revision. -/
theorem startRefresh_dichotomy (env : Env) (inP : Bool) (unitCr rbc : String)
    (b : UnitBag) (l : LocalState) (ab : AppBag) (r : StartRefreshResult)
    (h : startRefresh env inP unitCr rbc b l ab = .ok r) :
    (r.myBag = b ∧ r.localState = l)
    ∨ (r.myBag = certifyBag b unitCr ∧ r.localState = certifyLoc l
       ∧ r.refreshStarted = true
       ∧ r.unitStatusHigherPriority = Option.none
       ∧ unitCr = env.appControllerRevision
       ∧ (∃ firstUnit, env.units.head? = some firstUnit
            ∧ env.thisUnitNumber = firstUnit.number)
       ∧ 1 < env.units.length
       ∧ ∃ v, fromAppDatabag env.charmVersionParses ab = .ok v) := by
  unfold startRefresh at h
  cases hfu : env.units.head? with
  | none => rw [hfu] at h; exact absurd h (by simp)
  | some firstUnit =>
    rw [hfu] at h
    dsimp only at h
    by_cases hip : inP = false
    · rw [if_pos hip] at h
      cases h
      left
      exact ⟨rfl, rfl⟩
    · rw [if_neg hip] at h
      by_cases hfst : env.thisUnitNumber = firstUnit.number
      · rw [if_pos hfst] at h
        by_cases hcr : unitCr = env.appControllerRevision
        · rw [if_pos hcr] at h
          by_cases hlen : env.units.length ≤ 1
          · rw [if_pos hlen] at h
            exact absurd h (by simp)
          · rw [if_neg hlen] at h
            cases hdb : fromAppDatabag env.charmVersionParses ab with
            | error a =>
              rw [hdb] at h
              exact absurd h (by simp)
            | ok v =>
              rw [hdb] at h
              dsimp only at h
              split at h
              · split at h
                · cases h
                  right
                  exact ⟨rfl, rfl, rfl, rfl, hcr, ⟨firstUnit, rfl, hfst⟩,
                    Nat.not_le.mp hlen, v, rfl⟩
                · cases h
                  left
                  exact ⟨rfl, rfl⟩
              · rename_i hne
                simp only [Bool.or_eq_true, not_or, Bool.not_eq_true] at hne
                simp only [hne.2, Bool.false_eq_true, if_false] at h
                cases h
                rcases containerStage_dichotomy env unitCr rbc b l v
                    (forceParamsOf (forceRefreshStartValidation env.event
                      firstUnit.number env.thisUnitNumber inP))
                    (forceFailMsgs (forceRefreshStartValidation env.event
                      firstUnit.number env.thisUnitNumber inP)) with
                  hcase | hcase
                · left
                  exact ⟨hcase.1, hcase.2.1⟩
                · right
                  exact ⟨hcase.1, hcase.2.1, hcase.2.2.1, hcase.2.2.2, hcr,
                    ⟨firstUnit, rfl, hfst⟩, Nat.not_le.mp hlen, v, rfl⟩
        · rw [if_neg hcr] at h
          cases h
          left
          exact ⟨rfl, rfl⟩
      · rw [if_neg hfst] at h
        cases h
        left
        exact ⟨rfl, rfl⟩

/-- Helper: `_set_partition_and_app_status` is stable under lowering the
starting partition towards its own result: starting from any partition
between the result and the original start, it reaches the same partition,
the same app statuses and the same action output (only the `patched` flag
may differ, as the PATCH call is skipped when the value already matches). -/
theorem setPartition_stability (env : Env) (ha inP rs : Bool)
    (pa : PauseAfter) (ntd : List KUnit) (b : UnitBag) (p : Nat)
    (r : PartitionResult)
    (h : setPartitionAndAppStatus env ha inP rs pa ntd b p = .ok r)
    (p2 : Nat) (hlo : r.partition ≤ p2) (hhi : p2 ≤ p) :
    ∃ r2, setPartitionAndAppStatus env ha inP rs pa ntd b p2 = .ok r2
      ∧ r2.partition = r.partition
      ∧ r2.appStatusHigherPriority = r.appStatusHigherPriority
      ∧ r2.appStatusWritten = r.appStatusWritten
      ∧ r2.msgs = r.msgs := by
  have hkey : ∀ T : Nat, (if T < p then T else p) ≤ p2 →
      (if T < p2 then T else p2) = (if T < p then T else p) := by
    intro T hT
    rcases Nat.lt_or_ge T p with h2 | h2
    · rw [if_pos h2] at hT ⊢
      rcases Nat.lt_or_ge T p2 with h1 | h1
      · rw [if_pos h1]
      · rw [if_neg (Nat.not_lt.mpr h1)]
        omega
    · rw [if_neg (Nat.not_lt.mpr h2)] at hT ⊢
      have hp2 : p2 = p := Nat.le_antisymm hhi hT
      subst hp2
      rw [if_neg (Nat.not_lt.mpr h2)]
  unfold setPartitionAndAppStatus at h ⊢
  cases hl : env.isLeader with
  | false =>
    rw [if_pos hl] at h
    rw [if_pos rfl]
    cases h
    have hp2 : p2 = p := Nat.le_antisymm hhi hlo
    subst hp2
    exact ⟨_, rfl, rfl, rfl, rfl, rfl⟩
  | true =>
    have hl2 : ¬(env.isLeader = false) := by rw [hl]; exact (by decide)
    rw [if_neg hl2] at h
    rw [if_neg (by decide : ¬(true = false))]
    by_cases hip : inP = false
    · rw [if_pos hip] at h ⊢
      cases h
      exact ⟨_, rfl, rfl, rfl, rfl, rfl⟩
    · rw [if_neg hip] at h ⊢
      dsimp only at h ⊢
      cases hnu : nextUnitToRefresh ntd env.appControllerRevision with
      | none =>
        rw [hnu] at h
        exact absurd h (by simp)
      | some pr =>
        rcases pr with ⟨nu, ni⟩
        rw [hnu] at h
        dsimp only at h ⊢
        cases hhd : env.units.head? with
        | none =>
          rw [hhd] at h
          exact absurd h (by simp)
        | some firstUnit =>
          rw [hhd] at h
          dsimp only at h ⊢
          cases hlast : env.units.getLast? with
          | none =>
            rw [hlast] at h
            exact absurd h (by simp)
          | some lastUnit =>
            rw [hlast] at h
            dsimp only at h ⊢
            cases hnh : ntd.head? with
            | none =>
              rw [hnh] at h
              exact absurd h (by simp)
            | some ntdFirst =>
              rw [hnh] at h
              dsimp only at h ⊢
              cases h
              simp only at hlo
              have hk := hkey _ hlo
              refine ⟨_, rfl, ?_, ?_, ?_, ?_⟩
              · simp only
                rw [hk]
              · simp only
                rw [hk]
              · simp only
                rw [hk]
              · rfl

/-- Helper: the behaviour of the departing-unit recording is determined by
the environment alone: it is the identity, or it appends one fixed pod uid
to the databag list and mirrors the list to the local JSON file, or it
raises the assertion error. -/
theorem recordDepartingUnit_cases (env : Env) :
    (∀ b l, recordDepartingUnit env b l = .ok (b, l))
    ∨ (∃ uid, ∀ b l, recordDepartingUnit env b l =
        .ok ({ b with pod_uids_of_units_that_are_tearing_down := some (appendIfMissing (b.pod_uids_of_units_that_are_tearing_down.getD []) uid) },
             { l with kubernetes_pod_ids_of_units_that_are_tearing_down := some (appendIfMissing (b.pod_uids_of_units_that_are_tearing_down.getD []) uid) }))
    ∨ (∀ b l, recordDepartingUnit env b l = .error .assertionError) := by
  unfold recordDepartingUnit
  cases hev : env.event with
  | other => left; intro b l; rfl
  | stop => left; intro b l; rfl
  | action name params => left; intro b l; rfl
  | relationDeparted sameApp n =>
    cases sameApp with
    | false => left; intro b l; rfl
    | true =>
      cases hflt : (env.units.filter (fun u => u.number = n)).map
          (fun u => u.podUid) with
      | nil =>
        left; intro b l
        simp [hflt]
      | cons x xs =>
        cases xs with
        | nil =>
          right; left
          refine ⟨x, fun b l => ?_⟩
          simp [hflt]
        | cons y ys =>
          right; right
          intro b l
          simp [hflt]

/-- Helper: the leader hash merge does not touch the version snapshot keys
of the app databag. -/
theorem mergeRefreshStartedToApp_originals (env : Env) (b : UnitBag)
    (ab : AppBag) :
    (mergeRefreshStartedToApp env b ab).originals = ab.originals := rfl

/-- Helper: membership in a fold of list appends. -/
theorem mem_foldl_append {f : KUnit → List String} {y : String} :
    ∀ (l : List KUnit) (init : List String),
      (y ∈ l.foldl (fun acc u => acc ++ f u) init)
      ↔ y ∈ init ∨ ∃ u ∈ l, y ∈ f u := by
  intro l
  induction l with
  | nil => simp
  | cons x xs ih =>
    intro init
    rw [List.foldl_cons, ih]
    constructor
    · rintro (h1 | h1)
      · rcases List.mem_append.mp h1 with h2 | h2
        · exact Or.inl h2
        · exact Or.inr ⟨x, by simp, h2⟩
      · obtain ⟨u, hu, hy⟩ := h1
        exact Or.inr ⟨u, by simp [hu], hy⟩
    · rintro (h1 | h1)
      · exact Or.inl (List.mem_append.mpr (Or.inl h1))
      · obtain ⟨u, hu, hy⟩ := h1
        rcases List.mem_cons.mp hu with rfl | hu1
        · exact Or.inl (List.mem_append.mpr (Or.inr hy))
        · exact Or.inr ⟨u, hu1, hy⟩

/-- Helper: a uid is tearing down iff some unit databag lists it. -/
theorem mem_tearingDownUidsAll (env : Env) (b : UnitBag) (y : String) :
    y ∈ tearingDownUidsAll env b
      ↔ ∃ u ∈ env.units, y ∈ bagTearingDownUids env b u := by
  unfold tearingDownUidsAll
  rw [mem_foldl_append]
  simp

/-- Helper: shrinking this unit databag pod-uid list can only shrink the
tearing-down uid collection. -/
theorem tearingDownUidsAll_sub (env : Env) {b1 b2 : UnitBag}
    (hsub : ∀ y ∈ b2.pod_uids_of_units_that_are_tearing_down.getD [],
      y ∈ b1.pod_uids_of_units_that_are_tearing_down.getD []) :
    ∀ y ∈ tearingDownUidsAll env b2, y ∈ tearingDownUidsAll env b1 := by
  intro y hy
  rw [mem_tearingDownUidsAll] at hy ⊢
  obtain ⟨u, hu, hyu⟩ := hy
  refine ⟨u, hu, ?_⟩
  unfold bagTearingDownUids relationGet at hyu ⊢
  by_cases hn : u.number = env.thisUnitNumber
  · rw [if_pos hn] at hyu ⊢
    dsimp only at hyu ⊢
    exact hsub y hyu
  · rw [if_neg hn] at hyu ⊢
    exact hyu

/-- Helper: if a unit survives the teardown filter for a larger uid
collection, the filter for the smaller collection is nonempty too. -/
theorem unitsNotTearingDownOf_head_isSome (env : Env) {b1 b2 : UnitBag}
    (hsub : ∀ y ∈ b2.pod_uids_of_units_that_are_tearing_down.getD [],
      y ∈ b1.pod_uids_of_units_that_are_tearing_down.getD [])
    {x : KUnit} (hx : (unitsNotTearingDownOf env b1).head? = some x) :
    ∃ z, (unitsNotTearingDownOf env b2).head? = some z := by
  have hx1 : x ∈ unitsNotTearingDownOf env b1 := by
    cases hl : unitsNotTearingDownOf env b1 with
    | nil => rw [hl] at hx; cases hx
    | cons a as =>
      rw [hl] at hx
      simp at hx
      simp [hl, hx]
  have hx2 : x ∈ unitsNotTearingDownOf env b2 := by
    unfold unitsNotTearingDownOf at hx1 ⊢
    have h1 := List.mem_filter.mp hx1
    refine List.mem_filter.mpr ⟨h1.1, ?_⟩
    have h2 := h1.2
    simp only [decide_eq_true_eq] at h2 ⊢
    exact fun hc => h2 (tearingDownUidsAll_sub env hsub _ hc)
  cases hl2 : unitsNotTearingDownOf env b2 with
  | nil =>
    rw [hl2] at hx2
    cases hx2
  | cons a as => exact ⟨a, by simp [hl2]⟩

/-- Helper: clearing the hash and pod-uid fields back to their current
values, after an intermediate pod-uid write, is the identity. -/
theorem unitBag_clear_after_pod (b : UnitBag) (z x y : Option (List String))
    (hx : b.refresh_started_if_app_controller_revision_hash_in = x)
    (hy : b.pod_uids_of_units_that_are_tearing_down = y) :
    ({ { b with pod_uids_of_units_that_are_tearing_down := z } with
        refresh_started_if_app_controller_revision_hash_in := x,
        pod_uids_of_units_that_are_tearing_down := y } : UnitBag) = b := by
  rw [← hx, ← hy]

/-- Helper: same identity for the local state after an intermediate JSON
write. -/
theorem localState_clear_after_json (l : LocalState)
    (z : Option (List String)) (x : Bool) (y : Option (List String))
    (hx : l.kubernetes_refresh_started = x)
    (hy : l.kubernetes_pod_ids_of_units_that_are_tearing_down = y) :
    ({ { l with kubernetes_pod_ids_of_units_that_are_tearing_down := z } with
        kubernetes_refresh_started := x,
        kubernetes_pod_ids_of_units_that_are_tearing_down := y }
      : LocalState) = l := by
  rw [← hx, ← hy]

/-- Helper: two-field eta for the unit databag. -/
theorem unitBag_set_hashes_pod_self (b : UnitBag)
    (x y : Option (List String))
    (hx : b.refresh_started_if_app_controller_revision_hash_in = x)
    (hy : b.pod_uids_of_units_that_are_tearing_down = y) :
    ({ b with
        refresh_started_if_app_controller_revision_hash_in := x,
        pod_uids_of_units_that_are_tearing_down := y } : UnitBag) = b := by
  rw [← hx, ← hy]

/-- Helper: two-field eta for the local state. -/
theorem localState_set_rs_json_self (l : LocalState) (x : Bool)
    (y : Option (List String))
    (hx : l.kubernetes_refresh_started = x)
    (hy : l.kubernetes_pod_ids_of_units_that_are_tearing_down = y) :
    ({ l with
        kubernetes_refresh_started := x,
        kubernetes_pod_ids_of_units_that_are_tearing_down := y }
      : LocalState) = l := by
  rw [← hx, ← hy]

/-- Helper: when every unit already runs the target controller revision,
the observed pause values are those of all units, independently of the
teardown filter (provided both head lookups succeed). -/
theorem pauseValuesOf_allSame (env : Env) (b : UnitBag) (ntd : List KUnit)
    (hnz : ntd.head?.isSome) (huf : env.units.head?.isSome)
    (hall : ∀ u ∈ env.units,
      u.controllerRevision = env.appControllerRevision) :
    pauseValuesOf env b ntd = some (env.units.filterMap (fun u =>
      (relationGet env b u).bind
        (fun bg => bg.pause_after_unit_refresh_config))) := by
  obtain ⟨x, hx⟩ := Option.isSome_iff_exists.mp hnz
  obtain ⟨uf, huf1⟩ := Option.isSome_iff_exists.mp huf
  unfold pauseValuesOf
  rw [hx, huf1]
  dsimp only
  have huf2 : uf ∈ env.units := by
    cases hl : env.units with
    | nil => rw [hl] at huf1; cases huf1
    | cons c cs =>
      rw [hl] at huf1
      simp at huf1
      simp [hl, huf1]
  have hfe : env.units.filter (fun u =>
      u.controllerRevision = uf.controllerRevision
        ∨ u.controllerRevision = x.controllerRevision) = env.units := by
    apply List.filter_eq_self.mpr
    intro a ha
    have h1 := hall a ha
    have h2 := hall uf huf2
    simp [h1, h2]
  rw [hfe]

/-- Helper: with every unit on the target controller revision, the pause
policy computation does not depend on the teardown filter nor on any field
of this unit databag other than the pause value. -/
theorem computePauseAfter_allSame_congr (env : Env) {b1 b2 : UnitBag}
    (hp : b1.pause_after_unit_refresh_config
      = b2.pause_after_unit_refresh_config)
    {ntd1 ntd2 : List KUnit}
    (h1 : ntd1.head?.isSome) (h2 : ntd2.head?.isSome)
    (huf : env.units.head?.isSome)
    (hall : ∀ u ∈ env.units,
      u.controllerRevision = env.appControllerRevision) :
    computePauseAfter env b1 ntd1 = computePauseAfter env b2 ntd2 := by
  unfold computePauseAfter
  rw [pauseValuesOf_allSame env b1 ntd1 h1 huf hall,
      pauseValuesOf_allSame env b2 ntd2 h2 huf hall]
  simp only [relationGet_pause_congr env hp]

/-- Helper: the rollback command reads the app databag only through the
snapshot keys. -/
theorem computeRollbackCommand_congr (env : Env) (inP : Bool)
    {a1 a2 : AppBag} (h : a1.originals = a2.originals) :
    computeRollbackCommand env inP a1 = computeRollbackCommand env inP a2 := by
  unfold computeRollbackCommand
  rw [fromAppDatabag_congr env.charmVersionParses h]

/-- Helper: a successful pause-policy computation presupposes both the unit
list and the teardown filter are nonempty. -/
theorem computePauseAfter_ok_head (env : Env) (b : UnitBag)
    (ntd : List KUnit) (pa : PauseAfter)
    (h : computePauseAfter env b ntd = .ok pa) :
    ntd.head?.isSome ∧ env.units.head?.isSome := by
  unfold computePauseAfter pauseValuesOf at h
  cases h1 : ntd.head? with
  | none =>
    rw [h1] at h
    simp at h
  | some x =>
    rw [h1] at h
    cases h2 : env.units.head? with
    | none =>
      rw [h2] at h
      simp at h
    | some y => simp [h1, h2]

/-- Helper: the not-in-progress cleanup clears the unit databag hash and
pod-uid keys and the local flags, and its app-databag snapshot keys depend
only on the environment and the incoming snapshot. -/
theorem cleanupNotInProgress_replay (env : Env) (b : UnitBag) (ab : AppBag)
    (l : LocalState) (b7 : UnitBag) (a2 : AppBag) (l3 : LocalState)
    (h : cleanupNotInProgress env b ab l = .ok (b7, a2, l3)) :
    b7 = { b with
      refresh_started_if_app_controller_revision_hash_in := Option.none,
      pod_uids_of_units_that_are_tearing_down := Option.none }
    ∧ l3 = { l with
      kubernetes_refresh_started := false,
      kubernetes_pod_ids_of_units_that_are_tearing_down := Option.none }
    ∧ ∀ (b2 : UnitBag) (ab2 : AppBag) (l2 : LocalState),
        ab2.originals = a2.originals →
        ∃ a3, cleanupNotInProgress env b2 ab2 l2 =
            .ok ({ b2 with
              refresh_started_if_app_controller_revision_hash_in := Option.none,
              pod_uids_of_units_that_are_tearing_down := Option.none },
              a3,
              { l2 with
                kubernetes_refresh_started := false,
                kubernetes_pod_ids_of_units_that_are_tearing_down := Option.none })
          ∧ a3.originals = a2.originals := by
  unfold cleanupNotInProgress at h ⊢
  cases hl : env.isLeader with
  | false =>
    rw [hl] at h
    simp only [Bool.false_eq_true, if_false] at h
    cases h
    refine ⟨rfl, rfl, ?_⟩
    intro b2 ab2 l2 horig
    exact ⟨ab2, by simp, horig⟩
  | true =>
    rw [hl] at h
    simp only [if_true] at h
    cases hc : env.installedContainer with
    | none =>
      rw [hc] at h
      dsimp only at h
      cases h
      refine ⟨rfl, rfl, ?_⟩
      intro b2 ab2 l2 horig
      exact ⟨{ ab2 with
        refresh_started_if_app_controller_revision_hash_in := Option.none },
        by simp [hc], horig⟩
    | some ic =>
      rw [hc] at h
      dsimp only at h
      cases hmk : mkOriginalVersions
          (if (ic = env.pinnedContainer : Bool) = true then
            some env.pinnedWorkloadVersion else Option.none)
          ic ((ic = env.pinnedContainer : Bool))
          env.installedCharmVersion env.installedCharmRevisionRaw with
      | error m =>
        rw [hmk] at h
        exact absurd h (by simp)
      | ok v =>
        rw [hmk] at h
        cases h
        refine ⟨rfl, rfl, ?_⟩
        intro b2 ab2 l2 horig
        refine ⟨writeToAppDatabag v { ab2 with
          refresh_started_if_app_controller_revision_hash_in := Option.none },
          ?_, rfl⟩
        dsimp only
        rw [hmk]
        rfl

/-- Helper: with no units, `_start_refresh` raises `IndexError`. -/
theorem startRefresh_noUnits (env : Env) (inP : Bool) (unitCr rbc : String)
    (b : UnitBag) (l : LocalState) (ab : AppBag)
    (hhd : env.units.head? = Option.none) :
    startRefresh env inP unitCr rbc b l ab = .error .indexError := by
  unfold startRefresh
  rw [hhd]

/-- Helper: with no refresh in progress, `_start_refresh` returns
immediately without writing (lines 1047-1048). -/
theorem startRefresh_notInProgress (env : Env) (unitCr rbc : String)
    (b : UnitBag) (l : LocalState) (ab : AppBag) (fu : KUnit)
    (hhd : env.units.head? = some fu) :
    startRefresh env false unitCr rbc b l ab = .ok
      { myBag := b, localState := l, refreshStarted := false,
        msgs := forceFailMsgs (forceRefreshStartValidation env.event
          fu.number env.thisUnitNumber false) } := by
  unfold startRefresh
  rw [hhd]
  dsimp only
  rw [if_pos rfl]

/-- Helper: with no refresh in progress, `_set_partition_and_app_status`
ignores the refresh flag, the teardown filter and the databag; on the
leader it resets the partition to 0, on a non-leader it only reports. -/
theorem setPartition_notInProgress_replay (env : Env) (ha rs : Bool)
    (pa : PauseAfter) (ntd : List KUnit) (b : UnitBag) (p : Nat)
    (r : PartitionResult)
    (h : setPartitionAndAppStatus env ha false rs pa ntd b p = .ok r) :
    (env.isLeader = false → r.partition = p)
    ∧ ∀ (rs2 : Bool) (ntd2 : List KUnit) (b2 : UnitBag) (p2 : Nat),
        (env.isLeader = false → p2 = p) →
        ∃ r2, setPartitionAndAppStatus env ha false rs2 pa ntd2 b2 p2 = .ok r2
          ∧ r2.partition = r.partition
          ∧ r2.appStatusHigherPriority = r.appStatusHigherPriority
          ∧ r2.appStatusWritten = r.appStatusWritten
          ∧ r2.msgs = r.msgs := by
  unfold setPartitionAndAppStatus at h
  cases hl : env.isLeader with
  | false =>
    rw [if_pos hl] at h
    cases h
    refine ⟨fun hlf => rfl, ?_⟩
    intro rs2 ntd2 b2 p2 hp
    unfold setPartitionAndAppStatus
    rw [if_pos hl]
    refine ⟨_, rfl, ?_, rfl, rfl, rfl⟩
    dsimp only
    exact hp rfl
  | true =>
    rw [hl] at h
    rw [if_neg (by decide : ¬((true : Bool) = false))] at h
    rw [if_pos rfl] at h
    cases h
    refine ⟨fun hlf => absurd hlf (by decide), ?_⟩
    intro rs2 ntd2 b2 p2 hp
    unfold setPartitionAndAppStatus
    rw [hl]
    rw [if_neg (by decide : ¬((true : Bool) = false))]
    rw [if_pos rfl]
    exact ⟨_, rfl, rfl, rfl, rfl, rfl⟩

/-- Helper: replaying the evaluation tail from the state it produced
reproduces the statuses and the computed partition and leaves the unit
databag, the local state and the version snapshot untouched (the facts part
describes the produced state; the second part is the replay). -/
theorem evalTail_replay (env : Env) (inP : Bool) (unitCr : String)
    (p2 : Nat) (b4 : UnitBag) (l2 : LocalState) (ab : AppBag)
    (o1 : EvalOutput) (s1 : KState)
    (h : evalTail env inP unitCr p2 b4 l2 ab = .ok (o1, s1))
    (hpause : b4.pause_after_unit_refresh_config = some env.pauseConfig)
    (hhad : l2.kubernetes_had_opportunity_to_raise_partition_after_pod_restart
      = true)
    (htear : l2.kubernetes_unit_tearing_down = false)
    (hallcr : inP = false → ∀ u ∈ env.units,
      u.controllerRevision = env.appControllerRevision) :
    (s1.localState.kubernetes_unit_tearing_down = false
     ∧ s1.localState.kubernetes_had_opportunity_to_raise_partition_after_pod_restart = true
     ∧ s1.myBag.pause_after_unit_refresh_config = some env.pauseConfig
     ∧ s1.partition ≤ p2
     ∧ (inP = true →
         s1.myBag.pod_uids_of_units_that_are_tearing_down
             = b4.pod_uids_of_units_that_are_tearing_down
           ∧ s1.localState.kubernetes_pod_ids_of_units_that_are_tearing_down
             = l2.kubernetes_pod_ids_of_units_that_are_tearing_down)
     ∧ (inP = false →
         s1.myBag.pod_uids_of_units_that_are_tearing_down = Option.none
           ∧ s1.localState.kubernetes_pod_ids_of_units_that_are_tearing_down
             = Option.none)
     ∧ (env.event = Event.stop ∧ inP = true →
         s1.myBag.unused_controller_revision_during_last_stop_event
           = some unitCr)
     ∧ (s1.localState.kubernetes_refresh_started = true →
         ∃ hs, s1.myBag.refresh_started_if_app_controller_revision_hash_in
             = some hs ∧ unitCr ∈ hs))
    ∧ (∀ (p2t : Nat) (b4t : UnitBag) (l2t : LocalState),
        s1.partition ≤ p2t → p2t ≤ p2 →
        ((b4t = s1.myBag ∧ l2t = s1.localState)
          ∨ (inP = false
             ∧ ∃ z, b4t = { s1.myBag with pod_uids_of_units_that_are_tearing_down := some z }
                ∧ l2t = { s1.localState with kubernetes_pod_ids_of_units_that_are_tearing_down := some z }
                ∧ ∀ y ∈ z, y ∈ b4.pod_uids_of_units_that_are_tearing_down.getD [])) →
        ∃ o2 s2, evalTail env inP unitCr p2t b4t l2t s1.appBag = .ok (o2, s2)
          ∧ o2.unitStatusHigherPriority = o1.unitStatusHigherPriority
          ∧ o2.appStatusHigherPriority = o1.appStatusHigherPriority
          ∧ o2.appStatusWritten = o1.appStatusWritten
          ∧ o2.partition = o1.partition
          ∧ o2.refreshStarted = o1.refreshStarted
          ∧ s2.partition = s1.partition
          ∧ s2.myBag = s1.myBag
          ∧ s2.localState = s1.localState
          ∧ s2.appBag.originals = s1.appBag.originals) := by
  unfold evalTail at h
  dsimp only at h
  generalize hNTD : unitsNotTearingDownOf env b4 = NTD at h
  generalize hM5 : (if env.event = Event.stop ∧ inP = true then { b4 with unused_controller_revision_during_last_stop_event := some unitCr } else b4) = M5 at h
  generalize hM6 : (if l2.kubernetes_refresh_started = true then { M5 with refresh_started_if_app_controller_revision_hash_in := some (appendIfMissing (M5.refresh_started_if_app_controller_revision_hash_in.getD []) unitCr) } else M5) = M6 at h
  generalize hA1 : (if env.isLeader = true then mergeRefreshStartedToApp env M6 ab else ab) = A1 at h
  cases inP with
  | true =>
    rw [if_pos rfl] at h
    dsimp only at h
    split at h
    · simp at h
    rename_i pauseAfter heq
    split at h
    · simp at h
    rename_i rollbackCommand hrbk
    split at h
    · simp at h
    rename_i sr hsr
    split at h
    · simp at h
    rename_i pr hpr
    cases h
    have hM5f : M5.pause_after_unit_refresh_config
          = b4.pause_after_unit_refresh_config
        ∧ M5.pod_uids_of_units_that_are_tearing_down
          = b4.pod_uids_of_units_that_are_tearing_down := by
      rw [← hM5]
      by_cases hc : env.event = Event.stop ∧ true = true
      · rw [if_pos hc]; exact ⟨rfl, rfl⟩
      · rw [if_neg hc]; exact ⟨rfl, rfl⟩
    have hM6f : M6.pause_after_unit_refresh_config
          = M5.pause_after_unit_refresh_config
        ∧ M6.pod_uids_of_units_that_are_tearing_down
          = M5.pod_uids_of_units_that_are_tearing_down
        ∧ M6.unused_controller_revision_during_last_stop_event
          = M5.unused_controller_revision_during_last_stop_event := by
      rw [← hM6]
      by_cases hc : l2.kubernetes_refresh_started = true
      · rw [if_pos hc]; exact ⟨rfl, rfl, rfl⟩
      · rw [if_neg hc]; exact ⟨rfl, rfl, rfl⟩
    have hM5stop : env.event = Event.stop →
        M5.unused_controller_revision_during_last_stop_event = some unitCr := by
      intro hc
      rw [← hM5, if_pos ⟨hc, rfl⟩]
    have hM6rs : l2.kubernetes_refresh_started = true →
        ∃ hs, M6.refresh_started_if_app_controller_revision_hash_in = some hs
          ∧ unitCr ∈ hs := by
      intro hc
      rw [← hM6, if_pos hc]
      exact ⟨_, rfl, mem_appendIfMissing _ _⟩
    have hM6pod : M6.pod_uids_of_units_that_are_tearing_down
        = b4.pod_uids_of_units_that_are_tearing_down :=
      hM6f.2.1.trans hM5f.2
    have hple := (setPartition_result_le env true true sr.refreshStarted
      pauseAfter NTD sr.myBag p2 pr hpr).1
    have hA1orig : ∀ a : AppBag,
        (if env.isLeader = true then mergeRefreshStartedToApp env M6 a
          else a).originals = a.originals := by
      intro a
      by_cases hc : env.isLeader = true
      · rw [if_pos hc]; exact mergeRefreshStartedToApp_originals env M6 a
      · rw [if_neg hc]
    rcases startRefresh_dichotomy env true unitCr _ M6 l2 A1 sr hsr with
      ⟨hsb, hsl⟩ |
      ⟨hsb, hsl, hsrs, hsst, hcr, ⟨fu, hfu, hfst⟩, hlen, v, hdb⟩
    · -- run 1 wrote nothing in _start_refresh
      refine ⟨⟨?_, ?_, ?_, ?_, ?_, ?_, ?_, ?_⟩, ?_⟩
      · dsimp only; rw [hsl]; exact htear
      · dsimp only; rw [hsl]; exact hhad
      · dsimp only; rw [hsb, hM6f.1, hM5f.1]; exact hpause
      · exact hple
      · intro hc
        constructor
        · dsimp only; rw [hsb]; exact hM6pod
        · dsimp only; rw [hsl]
      · intro hc; exact absurd hc (by decide)
      · intro hc
        dsimp only
        rw [hsb, hM6f.2.2]
        exact hM5stop hc.1
      · intro hrs1
        dsimp only at hrs1
        rw [hsl] at hrs1
        obtain ⟨hs0, hh0, hm0⟩ := hM6rs hrs1
        exact ⟨hs0, by dsimp only; rw [hsb]; exact hh0, hm0⟩
      · intro p2t b4t l2t hlot hhit hentry
        rcases hentry with ⟨hb, hl2t⟩ | ⟨hfalse, -⟩
        · subst hb
          subst hl2t
          dsimp only
          dsimp only at hlot
          rw [hsb, hsl]
          unfold evalTail
          dsimp only
          have hM5r : (if env.event = Event.stop ∧ true = true then
              { M6 with
                unused_controller_revision_during_last_stop_event :=
                  some unitCr } else M6) = M6 := by
            by_cases hc : env.event = Event.stop ∧ true = true
            · rw [if_pos hc]
              exact unitBag_set_stop_self _ _
                (hM6f.2.2.trans (hM5stop hc.1))
            · rw [if_neg hc]
          rw [hM5r]
          have hM6r : (if l2.kubernetes_refresh_started = true then
              { M6 with
                refresh_started_if_app_controller_revision_hash_in :=
                  some (appendIfMissing
                    (M6.refresh_started_if_app_controller_revision_hash_in.getD
                      []) unitCr) } else M6) = M6 := by
            by_cases hc : l2.kubernetes_refresh_started = true
            · rw [if_pos hc]
              obtain ⟨hs0, hh0, hm0⟩ := hM6rs hc
              have happ : appendIfMissing
                  (M6.refresh_started_if_app_controller_revision_hash_in.getD
                    []) unitCr = hs0 := by
                rw [hh0]
                exact appendIfMissing_of_mem hm0
              rw [happ]
              exact unitBag_set_hashes_self M6 (some hs0) hh0
            · rw [if_neg hc]
          rw [hM6r]
          rw [unitsNotTearingDownOf_congr env hM6pod, hNTD]
          rw [heq]
          dsimp only
          rw [if_pos rfl]
          dsimp only
          rw [computeRollbackCommand_congr env true (hA1orig A1), hrbk]
          dsimp only
          have hstarteq : refreshStartedAlready env M6
              (if env.isLeader = true then mergeRefreshStartedToApp env M6 A1
                else A1) = refreshStartedAlready env M6 A1 := by
            by_cases hc : env.isLeader = true
            · rw [if_pos hc]; exact refreshStartedAlready_merge env M6 A1
            · rw [if_neg hc]
          rw [startRefresh_appBag_congr env true unitCr _ M6 l2 hstarteq
            (hA1orig A1), hsr]
          dsimp only
          obtain ⟨pr2, hpr2, hp2eq, hh1, hh2, hmsg⟩ :=
            setPartition_stability env true true sr.refreshStarted pauseAfter
              NTD sr.myBag p2 pr hpr p2t hlot hhit
          rw [hpr2]
          dsimp only
          refine ⟨_, _, rfl, rfl, hh1, hh2, hp2eq, rfl, hp2eq, hsb, hsl,
            hA1orig A1⟩
        · exact absurd hfalse (by decide)
    · -- run 1 certified
      refine ⟨⟨?_, ?_, ?_, ?_, ?_, ?_, ?_, ?_⟩, ?_⟩
      · dsimp only; rw [hsl]; exact htear
      · dsimp only; rw [hsl]; exact hhad
      · dsimp only
        rw [hsb]
        show M6.pause_after_unit_refresh_config = some env.pauseConfig
        rw [hM6f.1, hM5f.1]; exact hpause
      · exact hple
      · intro hc
        constructor
        · dsimp only
          rw [hsb]
          show M6.pod_uids_of_units_that_are_tearing_down
            = b4.pod_uids_of_units_that_are_tearing_down
          exact hM6pod
        · dsimp only; rw [hsl]; rfl
      · intro hc; exact absurd hc (by decide)
      · intro hc
        dsimp only
        rw [hsb]
        show M6.unused_controller_revision_during_last_stop_event = some unitCr
        rw [hM6f.2.2]
        exact hM5stop hc.1
      · intro hrs1
        refine ⟨appendIfMissing
          (M6.refresh_started_if_app_controller_revision_hash_in.getD [])
          unitCr, ?_, mem_appendIfMissing _ _⟩
        dsimp only
        rw [hsb]
        rfl
      · intro p2t b4t l2t hlot hhit hentry
        rcases hentry with ⟨hb, hl2t⟩ | ⟨hfalse, -⟩
        · subst hb
          subst hl2t
          dsimp only
          dsimp only at hlot
          have hpodB : sr.myBag.pod_uids_of_units_that_are_tearing_down
              = b4.pod_uids_of_units_that_are_tearing_down := by
            rw [hsb]
            show M6.pod_uids_of_units_that_are_tearing_down
              = b4.pod_uids_of_units_that_are_tearing_down
            exact hM6pod
          have hpauseB : sr.myBag.pause_after_unit_refresh_config
              = M6.pause_after_unit_refresh_config := by
            rw [hsb]; rfl
          have hstopB : env.event = Event.stop →
              sr.myBag.unused_controller_revision_during_last_stop_event
                = some unitCr := by
            intro hc
            rw [hsb]
            show M6.unused_controller_revision_during_last_stop_event
              = some unitCr
            rw [hM6f.2.2]
            exact hM5stop hc
          have hrsB : sr.localState.kubernetes_refresh_started = true := by
            rw [hsl]; rfl
          have hhashB : sr.myBag.refresh_started_if_app_controller_revision_hash_in
              = some (appendIfMissing
                (M6.refresh_started_if_app_controller_revision_hash_in.getD [])
                unitCr) := by
            rw [hsb]; rfl
          unfold evalTail
          dsimp only
          have hM5r : (if env.event = Event.stop ∧ true = true then
              { sr.myBag with
                unused_controller_revision_during_last_stop_event :=
                  some unitCr } else sr.myBag) = sr.myBag := by
            by_cases hc : env.event = Event.stop ∧ true = true
            · rw [if_pos hc]
              exact unitBag_set_stop_self _ _ (hstopB hc.1)
            · rw [if_neg hc]
          rw [hM5r]
          have hM6r : (if sr.localState.kubernetes_refresh_started = true then
              { sr.myBag with
                refresh_started_if_app_controller_revision_hash_in :=
                  some (appendIfMissing
                    (sr.myBag.refresh_started_if_app_controller_revision_hash_in.getD
                      []) unitCr) } else sr.myBag) = sr.myBag := by
            rw [if_pos hrsB]
            have happ : appendIfMissing
                (sr.myBag.refresh_started_if_app_controller_revision_hash_in.getD
                  []) unitCr
                = appendIfMissing
                  (M6.refresh_started_if_app_controller_revision_hash_in.getD
                    []) unitCr := by
              rw [hhashB]
              exact appendIfMissing_of_mem (mem_appendIfMissing _ _)
            rw [happ]
            exact unitBag_set_hashes_self _ _ hhashB
          rw [hM6r]
          rw [unitsNotTearingDownOf_congr env hpodB, hNTD]
          rw [computePauseAfter_congr env hpauseB NTD, heq]
          dsimp only
          rw [if_pos rfl]
          dsimp only
          have hA1origB : ∀ a : AppBag,
              (if env.isLeader = true then
                mergeRefreshStartedToApp env sr.myBag a else a).originals
                = a.originals := by
            intro a
            by_cases hc : env.isLeader = true
            · rw [if_pos hc]
              exact mergeRefreshStartedToApp_originals env sr.myBag a
            · rw [if_neg hc]
          rw [computeRollbackCommand_congr env true (hA1origB A1), hrbk]
          dsimp only
          have hfumem : fu ∈ env.units := by
            cases hul : env.units with
            | nil => rw [hul] at hfu; cases hfu
            | cons a as =>
              rw [hul] at hfu
              simp at hfu
              simp [hul, hfu]
          have hmem2 : env.appControllerRevision
              ∈ sr.myBag.refresh_started_if_app_controller_revision_hash_in.getD
                [] := by
            rw [hhashB, ← hcr]
            exact mem_appendIfMissing _ _
          have hstarted2 : refreshStartedAlready env sr.myBag
              (if env.isLeader = true then
                mergeRefreshStartedToApp env sr.myBag A1 else A1) = true :=
            refreshStartedAlready_of_mem env sr.myBag _ fu hfumem hfst.symm
              hmem2
          have hdb2 : fromAppDatabag env.charmVersionParses
              (if env.isLeader = true then
                mergeRefreshStartedToApp env sr.myBag A1 else A1) = .ok v := by
            rw [fromAppDatabag_congr env.charmVersionParses (hA1origB A1)]
            exact hdb
          rw [startRefresh_already env unitCr (rollbackCommand.getD "")
            sr.myBag sr.localState _ fu v hfu hfst hcr hlen hstarted2 hdb2]
          dsimp only
          rw [hsrs] at hpr
          obtain ⟨pr2, hpr2, hp2eq, hh1, hh2, hmsg⟩ :=
            setPartition_stability env true true true pauseAfter
              NTD sr.myBag p2 pr hpr p2t hlot hhit
          rw [hpr2]
          dsimp only
          refine ⟨_, _, rfl, hsst.symm, hh1, hh2, hp2eq, hsrs.symm, hp2eq,
            rfl, rfl, hA1origB A1⟩
        · exact absurd hfalse (by decide)
  | false =>
    rw [if_neg (by decide : ¬((false : Bool) = true))] at h
    split at h
    · simp at h
    rename_i pauseAfter heq
    split at h
    · simp at h
    rename_i m7 a2 l3 hclean
    split at h
    · simp at h
    rename_i rollbackCommand hrbk
    split at h
    · simp at h
    rename_i sr hsr
    split at h
    · simp at h
    rename_i pr hpr
    obtain ⟨hm7, hl3, hcrepl⟩ :=
      cleanupNotInProgress_replay env M6 A1 l2 m7 a2 l3 hclean
    cases hhd : env.units.head? with
    | none =>
      rw [startRefresh_noUnits env false unitCr (rollbackCommand.getD "")
        m7 l3 a2 hhd] at hsr
      exact absurd hsr (by simp)
    | some fu =>
      rw [startRefresh_notInProgress env unitCr (rollbackCommand.getD "")
        m7 l3 a2 fu hhd] at hsr
      cases hsr
      cases h
      have hM5e : M5 = b4 := by
        rw [← hM5, if_neg (fun hc => absurd hc.2 (by decide))]
      have hM5e2 := hM5e.symm
      subst hM5e2
      have hM6f : M6.pause_after_unit_refresh_config
            = b4.pause_after_unit_refresh_config
          ∧ M6.pod_uids_of_units_that_are_tearing_down
            = b4.pod_uids_of_units_that_are_tearing_down := by
        rw [← hM6]
        by_cases hc : l2.kubernetes_refresh_started = true
        · rw [if_pos hc]; exact ⟨rfl, rfl⟩
        · rw [if_neg hc]; exact ⟨rfl, rfl⟩
      obtain ⟨hplf, hsprepl⟩ :=
        setPartition_notInProgress_replay env true _ pauseAfter NTD _ p2 pr hpr
      have hall := hallcr rfl
      obtain ⟨hntd1some, hufsome⟩ :=
        computePauseAfter_ok_head env M6 NTD pauseAfter heq
      refine ⟨⟨?_, ?_, ?_, ?_, ?_, ?_, ?_, ?_⟩, ?_⟩
      · dsimp only; rw [hl3]; exact htear
      · dsimp only; rw [hl3]; exact hhad
      · dsimp only
        rw [hm7]
        show M6.pause_after_unit_refresh_config = some env.pauseConfig
        rw [hM6f.1]; exact hpause
      · exact (setPartition_result_le env true false _ pauseAfter NTD _ p2
          pr hpr).1
      · intro hc; exact absurd hc (by decide)
      · intro hc
        constructor
        · dsimp only; rw [hm7]
        · dsimp only; rw [hl3]
      · intro hc; exact absurd hc.2 (by decide)
      · intro hrs1
        dsimp only at hrs1
        rw [hl3] at hrs1
        simp at hrs1
      · intro p2t b4t l2t hlot hhit hentry
        dsimp only at hlot
        have hp2t : env.isLeader = false → p2t = p2 := fun hlf =>
          Nat.le_antisymm hhit (by rw [hplf hlf] at hlot; exact hlot)
        have hmain : ∀ (Bx : UnitBag) (Lx : LocalState),
            Bx.pause_after_unit_refresh_config
              = M6.pause_after_unit_refresh_config →
            (∀ y ∈ Bx.pod_uids_of_units_that_are_tearing_down.getD [],
              y ∈ b4.pod_uids_of_units_that_are_tearing_down.getD []) →
            Lx.kubernetes_refresh_started = false →
            ({ Bx with
              refresh_started_if_app_controller_revision_hash_in := Option.none,
              pod_uids_of_units_that_are_tearing_down := Option.none }
              : UnitBag) = m7 →
            ({ Lx with
              kubernetes_refresh_started := false,
              kubernetes_pod_ids_of_units_that_are_tearing_down := Option.none }
              : LocalState) = l3 →
            ∃ o2 s2, evalTail env false unitCr p2t Bx Lx a2 = .ok (o2, s2)
              ∧ o2.unitStatusHigherPriority = Option.none
              ∧ o2.appStatusHigherPriority = pr.appStatusHigherPriority
              ∧ o2.appStatusWritten = pr.appStatusWritten
              ∧ o2.partition = pr.partition
              ∧ o2.refreshStarted = false
              ∧ s2.partition = pr.partition
              ∧ s2.myBag = m7
              ∧ s2.localState = l3
              ∧ s2.appBag.originals = a2.originals := by
          intro Bx Lx hBpause hBsub hLrs hclrB hclrL
          unfold evalTail
          dsimp only
          rw [if_neg (show ¬(env.event = Event.stop ∧ false = true) from
            fun hc => absurd hc.2 (by decide))]
          rw [if_neg (show ¬(Lx.kubernetes_refresh_started = true) from
            by rw [hLrs]; decide)]
          have h1some : (unitsNotTearingDownOf env Bx).head?.isSome := by
            obtain ⟨x, hx⟩ := Option.isSome_iff_exists.mp hntd1some
            rw [← hNTD] at hx
            obtain ⟨z2, hz2⟩ := unitsNotTearingDownOf_head_isSome env hBsub hx
            rw [hz2]
            rfl
          rw [computePauseAfter_allSame_congr env hBpause h1some hntd1some
            hufsome hall, heq]
          dsimp only
          rw [if_neg (by decide : ¬((false : Bool) = true))]
          have hA1orig2 : (if env.isLeader = true then
              mergeRefreshStartedToApp env Bx a2 else a2).originals
              = a2.originals := by
            by_cases hc : env.isLeader = true
            · rw [if_pos hc]
              exact mergeRefreshStartedToApp_originals env Bx a2
            · rw [if_neg hc]
          obtain ⟨a3, hcl2, ha3orig⟩ := hcrepl Bx _ Lx hA1orig2
          rw [hcl2]
          dsimp only
          rw [hclrB, hclrL]
          rw [computeRollbackCommand_congr env false ha3orig, hrbk]
          dsimp only
          rw [startRefresh_notInProgress env unitCr (rollbackCommand.getD "")
            m7 l3 a3 fu hhd]
          dsimp only
          obtain ⟨r2, hr2, hr2p, hr2h, hr2w, hr2m⟩ :=
            hsprepl _ (unitsNotTearingDownOf env Bx) _ p2t hp2t
          rw [hr2]
          dsimp only
          exact ⟨_, _, rfl, rfl, hr2h, hr2w, hr2p, rfl, hr2p, rfl, rfl,
            ha3orig⟩
        rcases hentry with ⟨hb, hl2t⟩ | ⟨-, z, hb, hl2t, hzsub⟩
        · dsimp only at hb hl2t ⊢
          rw [hb, hl2t]
          exact hmain m7 l3 (by rw [hm7]) (by simp [hm7]) (by rw [hl3])
            (unitBag_set_hashes_pod_self m7 Option.none Option.none
              (by rw [hm7]) (by rw [hm7]))
            (localState_set_rs_json_self l3 false Option.none
              (by rw [hl3]) (by rw [hl3]))
        · dsimp only at hb hl2t ⊢
          rw [hb, hl2t]
          exact hmain _ _
            (by show m7.pause_after_unit_refresh_config
                  = M6.pause_after_unit_refresh_config
                rw [hm7])
            (fun y hy => hzsub y hy)
            (by show l3.kubernetes_refresh_started = false
                rw [hl3])
            (unitBag_clear_after_pod m7 (some z) Option.none Option.none
              (by rw [hm7]) (by rw [hm7]))
            (localState_clear_after_json l3 (some z) false Option.none
              (by rw [hl3]) (by rw [hl3]))

/-- Helper: a fully written-out unit databag whose fields are the current
values is the databag itself. -/
theorem unitBag_eta2 (b : UnitBag) (pcfg : Option String)
    (x : Option (List String))
    (hp : b.pause_after_unit_refresh_config = pcfg)
    (hx : b.pod_uids_of_units_that_are_tearing_down = x) :
    ({ pause_after_unit_refresh_config := pcfg,
       refresh_started_if_app_controller_revision_hash_in := b.refresh_started_if_app_controller_revision_hash_in,
       pod_uids_of_units_that_are_tearing_down := x,
       next_unit_allowed_to_refresh_if_app_controller_revision_hash_equals := b.next_unit_allowed_to_refresh_if_app_controller_revision_hash_equals,
       unused_pod_uid_after_pod_restart_and_partition_raised := b.unused_pod_uid_after_pod_restart_and_partition_raised,
       unused_controller_revision_during_last_stop_event := b.unused_controller_revision_during_last_stop_event } : UnitBag) = b := by
  rw [← hp, ← hx]

/-- Helper: replaying the whole evaluation from the state produced by a
successful run whose tail started at `(p2, b4, l2)`: the preamble of the
second run rebuilds exactly the produced state and hands over to the tail
replay. -/
theorem evaluate_replay_from_tail (env : Env) (inP : Bool) (thisUnit : KUnit)
    (p2 : Nat) (b4 : UnitBag) (l2 : LocalState) (s0 : KState)
    (o1 : EvalOutput) (s1 : KState)
    (h : evalTail env inP thisUnit.controllerRevision p2 b4 l2 s0.appBag
      = .ok (o1, s1))
    (htr : env.trusted = true)
    (hfind : env.units.find? (fun u => u.number = env.thisUnitNumber)
      = some thisUnit)
    (hdep : departingIsSelf env = false)
    (hrel : env.relationExists = true)
    (hip : env.units.any
      (fun u => u.controllerRevision ≠ env.appControllerRevision) = inP)
    (hpause : b4.pause_after_unit_refresh_config = some env.pauseConfig)
    (hhad : l2.kubernetes_had_opportunity_to_raise_partition_after_pod_restart
      = true)
    (htear2 : l2.kubernetes_unit_tearing_down = false)
    (hstopP : env.event = Event.stop ∧ inP = true → thisUnit.number ≤ p2)
    (hallcr : inP = false → ∀ u ∈ env.units,
      u.controllerRevision = env.appControllerRevision)
    (hJ1 : ∀ y ∈ l2.kubernetes_pod_ids_of_units_that_are_tearing_down.getD [],
      y ∈ b4.pod_uids_of_units_that_are_tearing_down.getD [])
    (hJ2 : l2.kubernetes_pod_ids_of_units_that_are_tearing_down.isSome →
      b4.pod_uids_of_units_that_are_tearing_down.isSome)
    (hreccase : (∀ b l, recordDepartingUnit env b l = .ok (b, l))
      ∨ (∃ uid lst, (∀ b l, recordDepartingUnit env b l =
          .ok ({ b with pod_uids_of_units_that_are_tearing_down := some (appendIfMissing (b.pod_uids_of_units_that_are_tearing_down.getD []) uid) },
               { l with kubernetes_pod_ids_of_units_that_are_tearing_down := some (appendIfMissing (b.pod_uids_of_units_that_are_tearing_down.getD []) uid) }))
          ∧ b4.pod_uids_of_units_that_are_tearing_down = some lst
          ∧ l2.kubernetes_pod_ids_of_units_that_are_tearing_down = some lst
          ∧ uid ∈ lst)) :
    ∃ o2 s2, evaluate env s1 = .ok (o2, s2)
      ∧ o2.unitStatusHigherPriority = o1.unitStatusHigherPriority
      ∧ o2.appStatusHigherPriority = o1.appStatusHigherPriority
      ∧ o2.appStatusWritten = o1.appStatusWritten
      ∧ o2.partition = o1.partition
      ∧ o2.refreshStarted = o1.refreshStarted
      ∧ s2.partition = s1.partition
      ∧ s2.myBag = s1.myBag
      ∧ s2.localState = s1.localState
      ∧ s2.appBag.originals = s1.appBag.originals := by
  obtain ⟨⟨htear1, hhad1, hpause1, hple, hpodT, hpodF, hstop1, hrs1⟩, hrepl⟩ :=
    evalTail_replay env inP thisUnit.controllerRevision p2 b4 l2 s0.appBag
      o1 s1 h hpause hhad htear2 hallcr
  unfold evaluate
  dsimp only
  rw [htr]
  rw [if_neg (by decide : ¬((true : Bool) = false))]
  rw [hfind]
  dsimp only
  rw [hdep]
  rw [if_neg (by decide : ¬((false : Bool) = true))]
  rw [if_neg (show ¬(s1.localState.kubernetes_unit_tearing_down = true) from
    by rw [htear1]; decide)]
  rw [hip]
  rw [hrel]
  rw [if_neg (by decide : ¬((true : Bool) = false))]
  rw [hhad1]
  have hnraise : ∀ n q : Nat, ¬((true : Bool) = false ∧ inP = true ∧ q < n) :=
    fun n q hc => absurd hc.1 (by decide)
  rw [if_neg (hnraise thisUnit.number _)]
  rw [if_neg (hnraise thisUnit.number _)]
  rw [unitBag_set_pause_self s1.myBag (some env.pauseConfig) hpause1]
  rw [localState_set_had_self s1.localState true hhad1]
  cases hsj : s1.localState.kubernetes_pod_ids_of_units_that_are_tearing_down
      with
  | none =>
    dsimp only
    rcases hreccase with hrec | ⟨uid, lst, hrec, hb4pod, hl2json, huidlst⟩
    · rw [hrec]
      dsimp only
      refine hrepl _ s1.myBag s1.localState ?_ ?_ (Or.inl ⟨rfl, rfl⟩)
      · by_cases hc : env.event = Event.stop ∧ inP = true
            ∧ s1.partition < thisUnit.number
        · rw [if_pos hc]
          exact Nat.le_of_lt hc.2.2
        · rw [if_neg hc]
      · by_cases hc : env.event = Event.stop ∧ inP = true
            ∧ s1.partition < thisUnit.number
        · rw [if_pos hc]
          exact hstopP ⟨hc.1, hc.2.1⟩
        · rw [if_neg hc]
          exact hple
    · -- a departing unit is recorded again
      cases hinP : inP with
      | true =>
        obtain ⟨hs1pod, hs1json⟩ := hpodT hinP
        rw [hb4pod] at hs1pod
        rw [hl2json] at hs1json
        rw [hs1json] at hsj
        cases hsj
      | false =>
        obtain ⟨hs1pod, hs1json⟩ := hpodF hinP
        rw [hinP] at hrepl
        rw [hrec]
        dsimp only
        have hzsub : ∀ y ∈ appendIfMissing
            (s1.myBag.pod_uids_of_units_that_are_tearing_down.getD []) uid,
            y ∈ b4.pod_uids_of_units_that_are_tearing_down.getD [] := by
          intro y hy
          rw [hs1pod] at hy
          simp [appendIfMissing] at hy
          rw [hy, hb4pod]
          exact huidlst
        refine hrepl _ _ _ ?_ ?_ (Or.inr ⟨rfl, _, rfl, rfl, hzsub⟩)
        · by_cases hc : env.event = Event.stop ∧ false = true
              ∧ s1.partition < thisUnit.number
          · exact absurd hc.2.1 (by decide)
          · rw [if_neg hc]
        · by_cases hc : env.event = Event.stop ∧ false = true
              ∧ s1.partition < thisUnit.number
          · exact absurd hc.2.1 (by decide)
          · rw [if_neg hc]
            exact hple
  | some uids =>
    dsimp only
    have hsome : b4.pod_uids_of_units_that_are_tearing_down.isSome
        ∧ s1.myBag.pod_uids_of_units_that_are_tearing_down
          = b4.pod_uids_of_units_that_are_tearing_down
        ∧ ∀ y ∈ uids, y ∈ b4.pod_uids_of_units_that_are_tearing_down.getD []
        := by
      cases hinP : inP with
      | true =>
        obtain ⟨hs1pod, hs1json⟩ := hpodT hinP
        rw [hsj] at hs1json
        refine ⟨hJ2 (by rw [← hs1json]; rfl), hs1pod, ?_⟩
        intro y hy
        exact hJ1 y (by rw [← hs1json]; exact hy)
      | false =>
        obtain ⟨hs1pod, hs1json⟩ := hpodF hinP
        rw [hsj] at hs1json
        cases hs1json
    obtain ⟨hbsome, hs1pod, huidsub⟩ := hsome
    obtain ⟨L, hL⟩ := Option.isSome_iff_exists.mp hbsome
    have hfold : uids.foldl appendIfMissing
        (s1.myBag.pod_uids_of_units_that_are_tearing_down.getD [])
        = s1.myBag.pod_uids_of_units_that_are_tearing_down.getD [] :=
      foldl_appendIfMissing_id (fun x hx => by
        rw [hs1pod]
        exact huidsub x hx)
    rw [hfold]
    rw [unitBag_eta2 s1.myBag (some env.pauseConfig)
      (some (s1.myBag.pod_uids_of_units_that_are_tearing_down.getD []))
      hpause1 (by rw [hs1pod, hL]; rfl)]
    rcases hreccase with hrec | ⟨uid, lst, hrec, hb4pod, hl2json, huidlst⟩
    · rw [hrec]
      dsimp only
      refine hrepl _ s1.myBag s1.localState ?_ ?_ (Or.inl ⟨rfl, rfl⟩)
      · by_cases hc : env.event = Event.stop ∧ inP = true
            ∧ s1.partition < thisUnit.number
        · rw [if_pos hc]
          exact Nat.le_of_lt hc.2.2
        · rw [if_neg hc]
      · by_cases hc : env.event = Event.stop ∧ inP = true
            ∧ s1.partition < thisUnit.number
        · rw [if_pos hc]
          exact hstopP ⟨hc.1, hc.2.1⟩
        · rw [if_neg hc]
          exact hple
    · cases hinP : inP with
      | false =>
        obtain ⟨hs1podN, hs1jsonN⟩ := hpodF hinP
        rw [hsj] at hs1jsonN
        cases hs1jsonN
      | true =>
        obtain ⟨hs1podT, hs1jsonT⟩ := hpodT hinP
        rw [hinP] at hrepl
        rw [hrec]
        dsimp only
        have hs1lst : s1.myBag.pod_uids_of_units_that_are_tearing_down
            = some lst := by rw [hs1podT, hb4pod]
        have happ : appendIfMissing
            (s1.myBag.pod_uids_of_units_that_are_tearing_down.getD []) uid
            = lst := by
          rw [hs1lst]
          exact appendIfMissing_of_mem huidlst
        rw [happ]
        have hs1jlst : s1.localState.kubernetes_pod_ids_of_units_that_are_tearing_down
            = some lst := by rw [hs1jsonT, hl2json]
        rw [unitBag_set_pod_self s1.myBag (some lst) hs1lst]
        rw [localState_set_json_self s1.localState (some lst) hs1jlst]
        refine hrepl _ s1.myBag s1.localState ?_ ?_ (Or.inl ⟨rfl, rfl⟩)
        · by_cases hc : env.event = Event.stop ∧ true = true
              ∧ s1.partition < thisUnit.number
          · rw [if_pos hc]
            exact Nat.le_of_lt hc.2.2
          · rw [if_neg hc]
        · by_cases hc : env.event = Event.stop ∧ true = true
              ∧ s1.partition < thisUnit.number
          · rw [if_pos hc]
            exact hstopP ⟨hc.1, hinP⟩
          · rw [if_neg hc]
            exact hple

/-- C7: rerunning the per-trigger evaluation from the state it produced
reproduces the statuses, the computed partition and the refresh flag, and
leaves the partition, the unit databag, the local state files and the
version snapshot unchanged (only action output and the leader app-databag
hash merge may differ). -/
theorem refresh_C7_amended (env : Env) (s0 : KState) (o1 : EvalOutput)
    (s1 : KState) (h : evaluate env s0 = .ok (o1, s1)) :
    ∃ o2 s2, evaluate env s1 = .ok (o2, s2)
      ∧ o2.unitStatusHigherPriority = o1.unitStatusHigherPriority
      ∧ o2.appStatusHigherPriority = o1.appStatusHigherPriority
      ∧ o2.appStatusWritten = o1.appStatusWritten
      ∧ o2.partition = o1.partition
      ∧ o2.refreshStarted = o1.refreshStarted
      ∧ s2.partition = s1.partition
      ∧ s2.myBag = s1.myBag
      ∧ s2.localState = s1.localState
      ∧ s2.appBag.originals = s1.appBag.originals := by
  unfold evaluate at h
  dsimp only at h
  cases htr : env.trusted with
  | false =>
    rw [htr] at h
    rw [if_pos rfl] at h
    exact absurd h (by simp)
  | true =>
    rw [htr] at h
    rw [if_neg (by decide : ¬((true : Bool) = false))] at h
    cases hfind : env.units.find? (fun u => u.number = env.thisUnitNumber)
        with
    | none =>
      rw [hfind] at h
      exact absurd h (by simp)
    | some thisUnit =>
      rw [hfind] at h
      dsimp only at h
      cases hdep : departingIsSelf env with
      | true =>
        rw [hdep] at h
        simp at h
      | false =>
        rw [hdep] at h
        rw [if_neg (by decide : ¬((false : Bool) = true))] at h
        cases htear : s0.localState.kubernetes_unit_tearing_down with
        | true =>
          rw [htear] at h
          rw [if_pos rfl] at h
          exact absurd h (by simp)
        | false =>
          rw [htear] at h
          rw [if_neg (by decide : ¬((false : Bool) = true))] at h
          cases hrel : env.relationExists with
          | false =>
            rw [hrel] at h
            rw [if_pos rfl] at h
            exact absurd h (by simp)
          | true =>
            rw [hrel] at h
            rw [if_neg (by decide : ¬((true : Bool) = false))] at h
            cases hip : env.units.any
                (fun u => u.controllerRevision ≠ env.appControllerRevision)
                with
            | true =>
              rw [hip] at h
              cases hjson :
                  s0.localState.kubernetes_pod_ids_of_units_that_are_tearing_down
                  with
              | none =>
                rw [hjson] at h
                dsimp only at h
                rcases recordDepartingUnit_cases env with
                  hrec | ⟨uid, hrec⟩ | hrec
                · rw [hrec] at h
                  dsimp only at h
                  exact evaluate_replay_from_tail env true thisUnit _ _ _ s0
                    o1 s1 h htr hfind hdep hrel hip rfl rfl rfl
                    (by
                      intro hstp
                      by_cases hc2 : s0.localState.kubernetes_had_opportunity_to_raise_partition_after_pod_restart = false ∧ true = true ∧ (if env.event = Event.stop ∧ true = true ∧ s0.partition < thisUnit.number then thisUnit.number else s0.partition) < thisUnit.number
                      · rw [if_pos hc2]
                      · rw [if_neg hc2]
                        by_cases hc1 : env.event = Event.stop ∧ true = true
                            ∧ s0.partition < thisUnit.number
                        · rw [if_pos hc1]
                        · rw [if_neg hc1]
                          exact Nat.le_of_not_lt
                            (fun hlt => hc1 ⟨hstp.1, rfl, hlt⟩))
                    (fun hc => absurd hc (by decide))
                    (by intro y hy; simp at hy)
                    (by intro hc; simp at hc)
                    (Or.inl hrec)
                · rw [hrec] at h
                  dsimp only at h
                  exact evaluate_replay_from_tail env true thisUnit _ _ _ s0
                    o1 s1 h htr hfind hdep hrel hip rfl rfl rfl
                    (by
                      intro hstp
                      by_cases hc2 : s0.localState.kubernetes_had_opportunity_to_raise_partition_after_pod_restart = false ∧ true = true ∧ (if env.event = Event.stop ∧ true = true ∧ s0.partition < thisUnit.number then thisUnit.number else s0.partition) < thisUnit.number
                      · rw [if_pos hc2]
                      · rw [if_neg hc2]
                        by_cases hc1 : env.event = Event.stop ∧ true = true
                            ∧ s0.partition < thisUnit.number
                        · rw [if_pos hc1]
                        · rw [if_neg hc1]
                          exact Nat.le_of_not_lt
                            (fun hlt => hc1 ⟨hstp.1, rfl, hlt⟩))
                    (fun hc => absurd hc (by decide))
                    (fun y hy => hy)
                    (fun hc => rfl)
                    (Or.inr ⟨uid, _, hrec, rfl, rfl, mem_appendIfMissing _ _⟩)
                · rw [hrec] at h
                  simp at h
              | some uids =>
                rw [hjson] at h
                dsimp only at h
                rcases recordDepartingUnit_cases env with
                  hrec | ⟨uid, hrec⟩ | hrec
                · rw [hrec] at h
                  dsimp only at h
                  exact evaluate_replay_from_tail env true thisUnit _ _ _ s0
                    o1 s1 h htr hfind hdep hrel hip rfl rfl rfl
                    (by
                      intro hstp
                      by_cases hc2 : s0.localState.kubernetes_had_opportunity_to_raise_partition_after_pod_restart = false ∧ true = true ∧ (if env.event = Event.stop ∧ true = true ∧ s0.partition < thisUnit.number then thisUnit.number else s0.partition) < thisUnit.number
                      · rw [if_pos hc2]
                      · rw [if_neg hc2]
                        by_cases hc1 : env.event = Event.stop ∧ true = true
                            ∧ s0.partition < thisUnit.number
                        · rw [if_pos hc1]
                        · rw [if_neg hc1]
                          exact Nat.le_of_not_lt
                            (fun hlt => hc1 ⟨hstp.1, rfl, hlt⟩))
                    (fun hc => absurd hc (by decide))
                    (fun y hy => mem_foldl_appendIfMissing_right hy)
                    (fun hc => rfl)
                    (Or.inl hrec)
                · rw [hrec] at h
                  dsimp only at h
                  exact evaluate_replay_from_tail env true thisUnit _ _ _ s0
                    o1 s1 h htr hfind hdep hrel hip rfl rfl rfl
                    (by
                      intro hstp
                      by_cases hc2 : s0.localState.kubernetes_had_opportunity_to_raise_partition_after_pod_restart = false ∧ true = true ∧ (if env.event = Event.stop ∧ true = true ∧ s0.partition < thisUnit.number then thisUnit.number else s0.partition) < thisUnit.number
                      · rw [if_pos hc2]
                      · rw [if_neg hc2]
                        by_cases hc1 : env.event = Event.stop ∧ true = true
                            ∧ s0.partition < thisUnit.number
                        · rw [if_pos hc1]
                        · rw [if_neg hc1]
                          exact Nat.le_of_not_lt
                            (fun hlt => hc1 ⟨hstp.1, rfl, hlt⟩))
                    (fun hc => absurd hc (by decide))
                    (fun y hy => hy)
                    (fun hc => rfl)
                    (Or.inr ⟨uid, _, hrec, rfl, rfl, mem_appendIfMissing _ _⟩)
                · rw [hrec] at h
                  simp at h
            | false =>
              rw [hip] at h
              have hall : ∀ u ∈ env.units,
                  u.controllerRevision = env.appControllerRevision := by
                intro u hu
                have h3 : ¬(env.units.any
                    (fun u => u.controllerRevision ≠ env.appControllerRevision)
                    = true) := by
                  rw [hip]
                  decide
                rw [List.any_eq_true] at h3
                push_neg at h3
                have h4 := h3 u hu
                simpa using h4
              cases hjson :
                  s0.localState.kubernetes_pod_ids_of_units_that_are_tearing_down
                  with
              | none =>
                rw [hjson] at h
                dsimp only at h
                rcases recordDepartingUnit_cases env with
                  hrec | ⟨uid, hrec⟩ | hrec
                · rw [hrec] at h
                  dsimp only at h
                  exact evaluate_replay_from_tail env false thisUnit _ _ _ s0
                    o1 s1 h htr hfind hdep hrel hip rfl rfl rfl
                    (fun hc => absurd hc.2 (by decide))
                    (fun hc => hall)
                    (by intro y hy; simp at hy)
                    (by intro hc; simp at hc)
                    (Or.inl hrec)
                · rw [hrec] at h
                  dsimp only at h
                  exact evaluate_replay_from_tail env false thisUnit _ _ _ s0
                    o1 s1 h htr hfind hdep hrel hip rfl rfl rfl
                    (fun hc => absurd hc.2 (by decide))
                    (fun hc => hall)
                    (fun y hy => hy)
                    (fun hc => rfl)
                    (Or.inr ⟨uid, _, hrec, rfl, rfl, mem_appendIfMissing _ _⟩)
                · rw [hrec] at h
                  simp at h
              | some uids =>
                rw [hjson] at h
                dsimp only at h
                rcases recordDepartingUnit_cases env with
                  hrec | ⟨uid, hrec⟩ | hrec
                · rw [hrec] at h
                  dsimp only at h
                  exact evaluate_replay_from_tail env false thisUnit _ _ _ s0
                    o1 s1 h htr hfind hdep hrel hip rfl rfl rfl
                    (fun hc => absurd hc.2 (by decide))
                    (fun hc => hall)
                    (fun y hy => mem_foldl_appendIfMissing_right hy)
                    (fun hc => rfl)
                    (Or.inl hrec)
                · rw [hrec] at h
                  dsimp only at h
                  exact evaluate_replay_from_tail env false thisUnit _ _ _ s0
                    o1 s1 h htr hfind hdep hrel hip rfl rfl rfl
                    (fun hc => absurd hc.2 (by decide))
                    (fun hc => hall)
                    (fun y hy => hy)
                    (fun hc => rfl)
                    (Or.inr ⟨uid, _, hrec, rfl, rfl, mem_appendIfMissing _ _⟩)
                · rw [hrec] at h
                  simp at h

/-- C7 counterexample: replaying the evaluation of a certifying
force-refresh-start action yields different action output (the second run
fails with "refresh already started") and writes the leader hash merge into
the app databag (the hash list grows from empty to the unit controller
revision), while the statuses, partition, unit databag and local state are
reproduced: the evaluation is not literally idempotent. -/
theorem refresh_C7_counterexample :
    runForceReplay1 = .ok resultForceReplay1
    ∧ runForceReplay2 = .ok resultForceReplay2
    ∧ resultForceReplay1.1.actionMsgs ≠ resultForceReplay2.1.actionMsgs
    ∧ resultForceReplay1.2 ≠ resultForceReplay2.2
    ∧ resultForceReplay1.2.appBag.refresh_started_if_app_controller_revision_hash_in
        = some []
    ∧ resultForceReplay2.2.appBag.refresh_started_if_app_controller_revision_hash_in
        = some ["B"]
    ∧ resultForceReplay2.1.appStatusHigherPriority
        = resultForceReplay1.1.appStatusHigherPriority
    ∧ resultForceReplay2.1.partition = resultForceReplay1.1.partition
    ∧ resultForceReplay2.2.myBag = resultForceReplay1.2.myBag
    ∧ resultForceReplay2.2.localState = resultForceReplay1.2.localState := by
  refine ⟨rfl, rfl, ?_, ?_, ?_, ?_, ?_, ?_, ?_, ?_⟩ <;> decide

/-- Witness: the amended C7 statement applied to the force-refresh-start
replay fixture. -/
theorem refresh_C7_amended_witness :
    ∃ o2 s2, evaluate envForceReplay resultForceReplay1.2 = .ok (o2, s2)
      ∧ o2.unitStatusHigherPriority
          = resultForceReplay1.1.unitStatusHigherPriority
      ∧ o2.appStatusHigherPriority
          = resultForceReplay1.1.appStatusHigherPriority
      ∧ o2.appStatusWritten = resultForceReplay1.1.appStatusWritten
      ∧ o2.partition = resultForceReplay1.1.partition
      ∧ o2.refreshStarted = resultForceReplay1.1.refreshStarted
      ∧ s2.partition = resultForceReplay1.2.partition
      ∧ s2.myBag = resultForceReplay1.2.myBag
      ∧ s2.localState = resultForceReplay1.2.localState
      ∧ s2.appBag.originals = resultForceReplay1.2.appBag.originals :=
  refresh_C7_amended envForceReplay stateForceReplay resultForceReplay1.1
    resultForceReplay1.2 rfl

end CharmRefresh
